import Mathlib

/-!
Verification of the fabric-manager core of the VCDP/linux-kmd repository
(drivers/gpu/drm/i915/fabric): the mailbox protocol engine (mbdb.c, mbdb.h,
ops.c), the port-manager finite state machine (port.c), and the
topology/routing engine (routing_logic.c, routing_io.c, routing_topology.h).

The development is a shallow embedding: each relevant C function is
translated into an executable Lean definition over `Nat` (machine integers
become naturals with explicit `% 2^w` truncation where the C code truncates,
`&&&`/`|||`/`<<<`/`>>>` mirror `&`/`|`/`<<`/`>>`), and the stated properties
are proved about those definitions.
-/

/-! ## Constants from the C headers -/

/-- mbdb.h: `MBOX_CW_OPCODE_MASK`. -/
def MBOX_CW_OPCODE_MASK : Nat := 0xFF

/-- mbdb.h: `MBOX_CW_OPCODE_SHIFT`. -/
def MBOX_CW_OPCODE_SHIFT : Nat := 0

/-- mbdb.h: `MBOX_CW_IS_REQ_MASK`. -/
def MBOX_CW_IS_REQ_MASK : Nat := 0x1

/-- mbdb.h: `MBOX_CW_IS_REQ_SHIFT`. -/
def MBOX_CW_IS_REQ_SHIFT : Nat := 8

/-- mbdb.h: `MBOX_CW_POSTED_MASK`. -/
def MBOX_CW_POSTED_MASK : Nat := 0x1

/-- mbdb.h: `MBOX_CW_POSTED_SHIFT`. -/
def MBOX_CW_POSTED_SHIFT : Nat := 9

/-- mbdb.h: `MBOX_CW_SEQ_NO_MASK`. -/
def MBOX_CW_SEQ_NO_MASK : Nat := 0x3F

/-- mbdb.h: `MBOX_CW_SEQ_NO_SHIFT`. -/
def MBOX_CW_SEQ_NO_SHIFT : Nat := 10

/-- mbdb.h: `MBOX_CW_PARAMS_LEN_MASK`. -/
def MBOX_CW_PARAMS_LEN_MASK : Nat := 0xFFF

/-- mbdb.h: `MBOX_CW_PARAMS_LEN_SHIFT`. -/
def MBOX_CW_PARAMS_LEN_SHIFT : Nat := 16

/-- mbdb.h: `MBOX_CW_RSP_STATUS_MASK`. -/
def MBOX_CW_RSP_STATUS_MASK : Nat := 0xF

/-- mbdb.h: `MBOX_CW_RSP_STATUS_SHIFT`. -/
def MBOX_CW_RSP_STATUS_SHIFT : Nat := 28

/-- mbdb.h: `MBOX_CW_TID_MASK`. -/
def MBOX_CW_TID_MASK : Nat := 0xFFFFFFFF

/-- mbdb.h: `MBOX_CW_TID_SHIFT`. -/
def MBOX_CW_TID_SHIFT : Nat := 32

/-- ops.h: `MBOX_OP_CODE_FW_START`. -/
def MBOX_OP_CODE_FW_START : Nat := 3

/-- ops.h: `MBOX_OP_CODE_RESET`. -/
def MBOX_OP_CODE_RESET : Nat := 13

/-- ops.h: `MBOX_OP_CODE_QSFP_MGR_FAULT_TRAP_NOTIFICATION`. -/
def MBOX_OP_CODE_QSFP_MGR_FAULT_TRAP : Nat := 22

/-- ops.h: `MBOX_OP_CODE_LINK_MGR_PORT_STATE_CHANGE_TRAP_NOTIFICATION`. -/
def MBOX_OP_CODE_PORT_STATE_CHANGE_TRAP : Nat := 34

/-- ops.h: `MBOX_OP_CODE_LINK_MGR_PORT_LWD_TRAP_NOTIFICATION`. -/
def MBOX_OP_CODE_PORT_LWD_TRAP : Nat := 65

/-- ops.h: `MBOX_OP_CODE_LINK_MGR_PORT_LQI_TRAP_NOTIFICATION`. -/
def MBOX_OP_CODE_PORT_LQI_TRAP : Nat := 69

/-- ops.h: `MBOX_RSP_STATUS_OK`. -/
def MBOX_RSP_STATUS_OK : Nat := 0

/-- ops.h: `MBOX_RSP_STATUS_SEQ_NO_ERROR`. -/
def MBOX_RSP_STATUS_SEQ_NO_ERROR : Nat := 1

/-- ops.h: `enum mbdb_msg_type` value `MBOX_RESPONSE`. -/
def MBOX_RESPONSE : Nat := 0

/-- ops.h: `enum mbdb_msg_type` value `MBOX_REQUEST`. -/
def MBOX_REQUEST : Nat := 1

/-- ops.h: `enum posted` value `MBOX_RESPONSE_REQUESTED`. -/
def MBOX_RESPONSE_REQUESTED : Nat := 0

/-- ops.h: `enum posted` value `MBOX_NO_RESPONSE_REQUESTED`. -/
def MBOX_NO_RESPONSE_REQUESTED : Nat := 1

/-- routing_topology.h: `ROUTING_COST_INFINITE`. -/
def ROUTING_COST_INFINITE : Nat := 0xffff

/-- routing_topology.h: `ROUTING_UFT_INVALID_PORT8`. -/
def ROUTING_UFT_INVALID_PORT8 : Nat := 0x7f

/-- routing_topology.h: `ROUTING_UFT_INVALID_PORT4`. -/
def ROUTING_UFT_INVALID_PORT4 : Nat := 0xf

/-- routing_topology.h: `ROUTING_FID_BLOCK_SIZE`. -/
def ROUTING_FID_BLOCK_SIZE : Nat := 64

/-- routing_topology.h: `ROUTING_FID_CPORT_BASE` (equals the block size). -/
def ROUTING_FID_CPORT_BASE : Nat := 64

/-- routing_topology.h: `ROUTING_FID_BLOCK_BASE`. -/
def ROUTING_FID_BLOCK_BASE : Nat := 832

/-- routing_topology.h: `ROUTING_MAX_DEVICES`. -/
def ROUTING_MAX_DEVICES : Nat := 755

/-- routing_topology.h: `ROUTING_UFT_SIZE` = 48 * 1024. -/
def ROUTING_UFT_SIZE : Nat := 48 * 1024

/-- routing_topology.h: `ROUTING_DPA_DFID_MAP_SHIFT`. -/
def ROUTING_DPA_DFID_MAP_SHIFT : Nat := 6

/-- csr.h: `PORT_COUNT`. -/
def PORT_COUNT : Nat := 13

/-- csr.h: `PORT_CPORT_MASK`. -/
def PORT_CPORT_MASK : Nat := 0x0001

/-- csr.h: `PORT_BRIDGE_MASK`. -/
def PORT_BRIDGE_MASK : Nat := 0x1e00

/-- csr.h: `PORT_BRIDGE_START`. -/
def PORT_BRIDGE_START : Nat := 9

/-- csr.h: `PORT_BRIDGE_END`. -/
def PORT_BRIDGE_END : Nat := 12

/-- csr.h: `CSR_PORTS_BASE`. -/
def CSR_PORTS_BASE : Nat := 0x10000000

/-- csr.h: `CSR_PORT_OFFSET`. -/
def CSR_PORT_OFFSET : Nat := 0x400000

/-- csr.h: `CSR_REGION1_OFFSET`. -/
def CSR_REGION1_OFFSET : Nat := 0x20000000

/-- csr.h: `CSR_FIDGEN_MASK_A` (fidgen base is 0). -/
def CSR_FIDGEN_MASK_A : Nat := 0

/-- csr.h: `CSR_FIDGEN_LUT_BASE`. -/
def CSR_FIDGEN_LUT_BASE : Nat := 0x10000

/-- csr.h: `CSR_BT_PKG_ADDR_RANGE` = CSR_BRIDGE_TOP_BASE + 0x28. -/
def CSR_BT_PKG_ADDR_RANGE : Nat := 0x100000 + 0x28

/-- iaf_drv.h: `IB_PORT_DOWN`. -/
def IB_PORT_DOWN : Nat := 1

/-- iaf_drv.h: `IB_PORT_INIT`. -/
def IB_PORT_INIT : Nat := 2

/-- iaf_drv.h: `IB_PORT_ARMED`. -/
def IB_PORT_ARMED : Nat := 3

/-- iaf_drv.h: `IB_PORT_ACTIVE`. -/
def IB_PORT_ACTIVE : Nat := 4

/-- iaf_drv.h: `IB_PORT_PHYS_POLLING`. -/
def IB_PORT_PHYS_POLLING : Nat := 2

/-- iaf_drv.h: `IB_PORT_PHYS_DISABLED`. -/
def IB_PORT_PHYS_DISABLED : Nat := 3

/-- ops.h: `MBOX_SIZE_IN_BYTES` = 512 * 8 / 2. -/
def MBOX_SIZE_IN_BYTES : Nat := 512 * 8 / 2

/-- ops.h: `MBOX_PARAM_AREA_IN_BYTES` = MBOX_SIZE_IN_BYTES - 8. -/
def MBOX_PARAM_AREA_IN_BYTES : Nat := MBOX_SIZE_IN_BYTES - 8

/-- ops.h: `MBOX_WRITE_DATA_SIZE_IN_BYTES` = MBOX_PARAM_AREA_IN_BYTES - 8. -/
def MBOX_WRITE_DATA_SIZE_IN_BYTES : Nat := MBOX_PARAM_AREA_IN_BYTES - 8

/-- routing_io.c: `MAX_UFT_ENTRIES` = MBOX_PARAM_AREA_IN_BYTES minus the
8-byte `mbdb_op_rpipe_set` header. -/
def MAX_UFT_ENTRIES : Nat := MBOX_PARAM_AREA_IN_BYTES - 8

/-- Linux error number `EINVAL`. -/
def EINVAL : Int := 22

/-- Linux error number `ENODEV`. -/
def ENODEV : Int := 19

/-- Linux error number `ETIMEDOUT`. -/
def ETIMEDOUT : Int := 110

/-! ## Mailbox control word (mbdb.h)

`build_cw` packs the message fields into the 64-bit control word; the
`mbdb_mbox_*` accessors extract them again.  C integer casts (`(u8)`,
`(u16)`, `(u32)`) are modelled as `% 2^8`, `% 2^16`, `% 2^32`. -/

/-- mbdb.h `build_cw`: each field is masked to its width and shifted to its
position, and the pieces are or-ed together. -/
def build_cw (op_code req_rsp is_posted seq_no length tid : Nat) : Nat :=
  ((op_code &&& MBOX_CW_OPCODE_MASK) <<< MBOX_CW_OPCODE_SHIFT) |||
  ((req_rsp &&& MBOX_CW_IS_REQ_MASK) <<< MBOX_CW_IS_REQ_SHIFT) |||
  ((is_posted &&& MBOX_CW_POSTED_MASK) <<< MBOX_CW_POSTED_SHIFT) |||
  ((seq_no &&& MBOX_CW_SEQ_NO_MASK) <<< MBOX_CW_SEQ_NO_SHIFT) |||
  ((length &&& MBOX_CW_PARAMS_LEN_MASK) <<< MBOX_CW_PARAMS_LEN_SHIFT) |||
  ((tid &&& MBOX_CW_TID_MASK) <<< MBOX_CW_TID_SHIFT)

/-- mbdb.h `mbdb_mbox_op_code`: `(u8)(cw >> SHIFT) & MASK`. -/
def mbdb_mbox_op_code (cw : Nat) : Nat :=
  ((cw >>> MBOX_CW_OPCODE_SHIFT) % 2 ^ 8) &&& MBOX_CW_OPCODE_MASK

/-- mbdb.h `mbdb_mbox_msg_type`: `(cw >> SHIFT) & MASK`. -/
def mbdb_mbox_msg_type (cw : Nat) : Nat :=
  (cw >>> MBOX_CW_IS_REQ_SHIFT) &&& MBOX_CW_IS_REQ_MASK

/-- mbdb.h `mbdb_mbox_is_posted`: `(cw >> SHIFT) & MASK`. -/
def mbdb_mbox_is_posted (cw : Nat) : Nat :=
  (cw >>> MBOX_CW_POSTED_SHIFT) &&& MBOX_CW_POSTED_MASK

/-- mbdb.h `mbdb_mbox_seq_no`: `(u8)(cw >> SHIFT) & MASK`. -/
def mbdb_mbox_seq_no (cw : Nat) : Nat :=
  ((cw >>> MBOX_CW_SEQ_NO_SHIFT) % 2 ^ 8) &&& MBOX_CW_SEQ_NO_MASK

/-- mbdb.h `mbdb_mbox_seqno_next`: `(seqno + 1) & MBOX_CW_SEQ_NO_MASK`. -/
def mbdb_mbox_seqno_next (seqno : Nat) : Nat :=
  (seqno + 1) &&& MBOX_CW_SEQ_NO_MASK

/-- mbdb.h `mbdb_mbox_seqno_error`: `seqno != expected_seqno`. -/
def mbdb_mbox_seqno_error (seqno expected_seqno : Nat) : Bool :=
  seqno != expected_seqno

/-- mbdb.h `mbdb_mbox_params_len`: `(u16)(cw >> SHIFT) & MASK`. -/
def mbdb_mbox_params_len (cw : Nat) : Nat :=
  ((cw >>> MBOX_CW_PARAMS_LEN_SHIFT) % 2 ^ 16) &&& MBOX_CW_PARAMS_LEN_MASK

/-- mbdb.h `mbdb_mbox_tid`: `(u32)(cw >> SHIFT) & MASK`. -/
def mbdb_mbox_tid (cw : Nat) : Nat :=
  ((cw >>> MBOX_CW_TID_SHIFT) % 2 ^ 32) &&& MBOX_CW_TID_MASK

/-- mbdb.h `mbdb_mbox_rsp_status`: `(u8)(cw >> SHIFT) & MASK`. -/
def mbdb_mbox_rsp_status (cw : Nat) : Nat :=
  ((cw >>> MBOX_CW_RSP_STATUS_SHIFT) % 2 ^ 8) &&& MBOX_CW_RSP_STATUS_MASK

/-! ## Forwarding-table blocks (routing_topology.h)

A UFT block is a byte array; each byte holds two 4-bit destination-to-port
mappings, odd offsets in the low nibble.  The block is modelled as a
`List Nat` of byte values. -/

/-- Read a byte of a block (`block[i]`). -/
def arrGet (a : List Nat) (i : Nat) : Nat := a.getD i 0

/-- Write a byte of a block (`block[i] = v`). -/
def arrSet (a : List Nat) (i : Nat) (v : Nat) : List Nat := a.set i v

/-- routing_topology.h `routing_uft_entry_set`: update only the addressed
nibble of byte `fid_offset >> 1`; the store into the `u8` truncates to 8
bits. -/
def routing_uft_entry_set (block : List Nat) (fid_offset port : Nat) : List Nat :=
  let i := fid_offset >>> 1
  if fid_offset &&& 1 = 1 then
    arrSet block i (((arrGet block i &&& 0xf0) ||| (port &&& 0xf)) % 2 ^ 8)
  else
    arrSet block i (((port <<< 4) ||| (arrGet block i &&& 0xf)) % 2 ^ 8)

/-- routing_topology.h `routing_uft_entry_get`:
`(block[fid_offset >> 1] >> (fid_offset & 1 ? 0 : 4)) & 0xf`. -/
def routing_uft_entry_get (block : List Nat) (fid_offset : Nat) : Nat :=
  (arrGet block (fid_offset >>> 1) >>> (if fid_offset &&& 1 = 1 then 0 else 4)) &&& 0xf

/-! ## Per-plane cost matrix (routing_logic.c)

`compute_cost_for_plane` seeds an `n × n` matrix (flattened row-major, all
entries `0xffff` from the `memset`) with 0 on the diagonal and 1 for direct
neighbors, then runs the cubic relaxation loop exactly as written in C:
`value` is a `u16`, so the sum of two `u16` cost entries is truncated
`% 2^16`; the loop checks only `cost[ik]` against `ROUTING_COST_INFINITE`
before adding `cost[kj]`.

A plane is given by its subdevice count `n` and, for each subdevice, its
plane index paired with the plane indices reached by its fabric ports
(`neighbor_of` over the validated adjacency). -/

/-- The single-hop seeding loop of `compute_cost_for_plane`. -/
def costSeed (n : Nat) (sds : List (Nat × List Nat)) : List Nat :=
  sds.foldl
    (fun cost si =>
      let i := si.1
      let cost := arrSet cost (i * n + i) 0
      si.2.foldl (fun cost j => arrSet cost (i * n + j) 1) cost)
    (List.replicate (n * n) ROUTING_COST_INFINITE)

/-- The Floyd-Warshall relaxation loop of `compute_cost_for_plane`,
including the `u16` truncation of `value` and the asymmetric
infinite-sentinel check. -/
def costRelax (n : Nat) (cost0 : List Nat) : List Nat :=
  (List.range n).foldl
    (fun cost k =>
      (List.range (n - 1)).foldl
        (fun cost i =>
          if i = k then cost
          else if arrGet cost (i * n + k) = ROUTING_COST_INFINITE then cost
          else
            (List.range' (i + 1) (n - 1 - i)).foldl
              (fun cost j =>
                if j = k then cost
                else
                  let value := (arrGet cost (i * n + k) + arrGet cost (k * n + j)) % 2 ^ 16
                  if value < arrGet cost (i * n + j) then
                    arrSet (arrSet cost (i * n + j) value) (j * n + i) value
                  else cost)
              cost)
        cost)
    cost0

/-- routing_logic.c `compute_cost_for_plane` (successful allocation path):
seed then relax. -/
def compute_cost_for_plane (n : Nat) (sds : List (Nat × List Nat)) : List Nat :=
  costRelax n (costSeed n sds)

/-- The cost matrix of one plane, as read by `routing_cost_lookup`. -/
structure RoutingPlane where
  num_subdevs : Nat
  cost : List Nat
deriving Repr, DecidableEq

/-- The routing state of a subdevice relevant to `routing_cost_lookup`:
plane membership (a plane identifier standing for the C plane pointer;
`none` for NULL) and the per-plane index. -/
structure SdRouting where
  plane : Option Nat
  plane_index : Nat
deriving Repr, DecidableEq

/-- routing_logic.c `routing_cost_lookup`: `ROUTING_COST_INFINITE` when the
source has no plane or the two subdevices are on different planes, otherwise
the `i * n + j` entry of the plane's cost matrix. -/
def routing_cost_lookup (planes : Nat → RoutingPlane) (src dst : SdRouting) : Nat :=
  match src.plane with
  | none => ROUTING_COST_INFINITE
  | some p =>
      if dst.plane ≠ some p then ROUTING_COST_INFINITE
      else
        arrGet (planes p).cost
          (src.plane_index * (planes p).num_subdevs + dst.plane_index)

/-- The ring plane A-B-C-D-A with plane indices A=0, B=1, C=2, D=3: each
subdevice's validated adjacency reaches exactly its two ring neighbors. -/
def ringSds : List (Nat × List Nat) :=
  [(0, [1, 3]), (1, [0, 2]), (2, [1, 3]), (3, [2, 0])]

/-- The plane map holding the ring plane (id 0) with its computed cost. -/
def ringPlanes : Nat → RoutingPlane :=
  fun _ => { num_subdevs := 4, cost := compute_cost_for_plane 4 ringSds }

/-- Subdevice A of the ring plane. -/
def ringSdA : SdRouting := { plane := some 0, plane_index := 0 }

/-- Subdevice B of the ring plane. -/
def ringSdB : SdRouting := { plane := some 0, plane_index := 1 }

/-- Subdevice C of the ring plane. -/
def ringSdC : SdRouting := { plane := some 0, plane_index := 2 }

/-! ## Port-manager data model (iaf_drv.h, port.c)

Ports carry a PM state, the firmware-reported logical link state, the
administrative control bits, and the firmware-reported `portinfo`.  The
`next_port_status` health record of a port and the global isolated-port
counter are carried alongside in `PmCtx` when embedding the FSM actions. -/

/-- iaf_drv.h `enum pm_port_state`. -/
inductive PmPortState
  | DISABLED
  | ENABLED
  | IN_ERROR
  | ISOLATED
  | RECHECK
  | INIT
  | ACTIVE
deriving Repr, DecidableEq

/-- iaf_drv.h `enum fport_health`. -/
inductive FportHealth
  | BLACK
  | RED
  | YELLOW
  | GREEN
deriving Repr, DecidableEq

/-- iaf_drv.h `enum fport_error`. -/
inductive FportErrorReason
  | NONE
  | FAILED
  | ISOLATED
  | FLAPPING
  | LINK_DOWN
  | DID_NOT_TRAIN
deriving Repr, DecidableEq

/-- iaf_drv.h `enum fport_issue` bit index `FPORT_ISSUE_LQI`. -/
def FPORT_ISSUE_LQI : Nat := 0

/-- iaf_drv.h `enum fport_issue` bit index `FPORT_ISSUE_LWD`. -/
def FPORT_ISSUE_LWD : Nat := 1

/-- iaf_drv.h `enum fport_issue` bit index `FPORT_ISSUE_RATE`. -/
def FPORT_ISSUE_RATE : Nat := 2

/-- iaf_drv.h `struct fport_status`: health color, issue bitmap, error
reason. -/
structure FportStatus where
  health : FportHealth
  issues : Nat
  error_reason : FportErrorReason
deriving Repr, DecidableEq

/-- iaf_drv.h `enum fport_control` bits of `fport.controls`. -/
structure PortControls where
  enabled : Bool
  routable : Bool
  beaconing : Bool
  clear_error : Bool
deriving Repr, DecidableEq

/-- iaf_drv.h `struct portinfo` (the fields read by the embedded code). -/
structure Portinfo where
  neighbor_guid : Nat
  neighbor_port_number : Nat
  oldr_nn_lqi : Nat
  link_width_enabled : Nat
  link_width_active : Nat
  link_width_downgrade_rx_active : Nat
  link_width_downgrade_tx_active : Nat
  link_speed_enabled : Nat
  link_speed_active : Nat
deriving Repr, DecidableEq

/-- iaf_drv.h `struct fport` (the fields read by the embedded code).
`portinfo` is `none` when the C pointer is NULL. -/
structure Fport where
  lpn : Nat
  state : PmPortState
  log_state : Nat
  controls : PortControls
  portinfo : Option Portinfo
deriving Repr, DecidableEq

/-- routing_topology.h `port_is_routable`: PM state is ACTIVE and the
`PORT_CONTROL_ROUTABLE` bit is set. -/
def port_is_routable (p : Fport) : Bool :=
  p.state == PmPortState.ACTIVE && p.controls.routable

/-- iaf_drv.h `struct fsubdev` (the fields read by the embedded code):
`lpn_fport_map` is the logical-port-number-to-fport array (NULL entries are
`none`), `port_status` the RCU-published health array (`none` when no
record is published). -/
structure Fsubdev where
  guid : Nat
  lpn_fport_map : Nat → Option Fport
  port_status : Option (Nat → FportStatus)

/-- iaf_drv.h `get_fport_handle`: the fport at `lpn` if valid, else NULL. -/
def get_fport_handle (sd : Fsubdev) (lpn : Nat) : Option Fport :=
  if lpn < PORT_COUNT then sd.lpn_fport_map lpn else none

/-- main.c `find_routable_sd`: first subdevice on the routable list with the
given GUID. -/
def find_routable_sd (routable_list : List Fsubdev) (guid : Nat) : Option Fsubdev :=
  routable_list.find? (fun sd => sd.guid == guid)

/-- routing_logic.c `process_neighbor`: computes the new cached-neighbor
value of `port_src` (paired with the neighbor subdevice that owns it, which
the C code reaches through the `port->sd` back pointer); `none` mirrors the
`cached_neighbor = NULL` early returns. -/
def process_neighbor (routable_list : List Fsubdev) (sd_src : Fsubdev)
    (port_src : Fport) : Option (Fsubdev × Fport) :=
  if ¬ port_is_routable port_src then none else
  port_src.portinfo.bind fun pi =>
  if pi.neighbor_guid = 0 ∨ sd_src.guid = pi.neighbor_guid then none else
  (find_routable_sd routable_list pi.neighbor_guid).bind fun sd_dst =>
  (get_fport_handle sd_dst pi.neighbor_port_number).bind fun port_dst =>
  if ¬ port_is_routable port_dst then none else
  port_dst.portinfo.bind fun pj =>
  if pj.neighbor_guid ≠ sd_src.guid then none else
  if pj.neighbor_port_number ≠ port_src.lpn then none else
  some (sd_dst, port_dst)

/-- port.c `get_fport_status`: `-EINVAL` when the lpn has no fport or no
health record is published, leaving the caller's buffer untouched;
otherwise a copy of the published record.  The result pairs the returned
error code with the caller's buffer after the call. -/
def get_fport_status (sd : Fsubdev) (lpn : Nat) (status : FportStatus) :
    Int × FportStatus :=
  match get_fport_handle sd lpn with
  | none => (-EINVAL, status)
  | some _ =>
    match sd.port_status with
    | some curr => (0, curr lpn)
    | none => (-EINVAL, status)

/-! ## Port FSM actions (port.c)

Each FSM action mutates the port, its `next_port_status` health record, the
`fsm_io` flags and the global isolated-port counter; none of them returns
an error (they are `void` in C).  The result of the
`ops_linkmgr_port_*_state_set` mailbox call an action issues is passed in
as `(err, op_err)`; `port_in_error` issues its own mailbox call whose
result is only logged, passed in as `inerr_call_err`. -/

/-- port.c `struct fsm_io` flags. -/
structure FsmFlags where
  routing_changed : Bool
  rescan_needed : Bool
  request_deisolation : Bool
  deisolating : Bool
deriving Repr, DecidableEq

/-- The state an FSM action operates on: the port, its next-health record,
the `fsm_io` flags, and the `isolated_port_cnt` counter. -/
structure PmCtx where
  port : Fport
  health : FportStatus
  flags : FsmFlags
  isolated_port_cnt : Int
deriving Repr, DecidableEq

/-- port.c `set_health_black`. -/
def set_health_black : FportStatus :=
  { health := FportHealth.BLACK, issues := 0, error_reason := FportErrorReason.NONE }

/-- port.c `set_health_red`. -/
def set_health_red (error_reason : FportErrorReason) : FportStatus :=
  { health := FportHealth.RED, issues := 0, error_reason := error_reason }

/-- port.c `set_health_yellow`. -/
def set_health_yellow (status : FportStatus) (issue : Nat) : FportStatus :=
  { status with health := FportHealth.YELLOW, issues := status.issues ||| (1 <<< issue) }

/-- port.c `set_health_green`. -/
def set_health_green : FportStatus :=
  { health := FportHealth.GREEN, issues := 0, error_reason := FportErrorReason.NONE }

/-- Linux `fls`: index of the most significant set bit (1-based), 0 for 0. -/
def fls (x : Nat) : Nat := if x = 0 then 0 else Nat.log2 x + 1

/-- port.c `set_active_health`: green, degraded to yellow for low link
quality (`oldr_nn_lqi` bits [7:5] below 4), width downgrade or rate
downgrade. -/
def set_active_health (pi : Portinfo) : FportStatus :=
  let s := set_health_green
  let s := if (pi.oldr_nn_lqi >>> 5) &&& 7 < 4 then set_health_yellow s FPORT_ISSUE_LQI else s
  let s := if fls pi.link_width_active < fls pi.link_width_enabled ∨
             pi.link_width_downgrade_rx_active ≠ pi.link_width_active ∨
             pi.link_width_downgrade_tx_active ≠ pi.link_width_active
           then set_health_yellow s FPORT_ISSUE_LWD else s
  if fls pi.link_speed_enabled < fls pi.link_speed_active
  then set_health_yellow s FPORT_ISSUE_RATE else s

/-- port.c `port_in_error`: drop the isolated count if the port was
isolated, move the port to IN_ERROR with RED/FAILED health, flag routing as
changed, and issue a PHYS_DISABLED mailbox call whose failure is only
logged (`inerr_call_err` unused beyond that). -/
def port_in_error (ctx : PmCtx) (_inerr_call_err : Int) : PmCtx :=
  let cnt := if ctx.port.state == PmPortState.ISOLATED
             then ctx.isolated_port_cnt - 1 else ctx.isolated_port_cnt
  { port := { ctx.port with state := PmPortState.IN_ERROR },
    health := set_health_red FportErrorReason.FAILED,
    flags := { ctx.flags with routing_changed := true },
    isolated_port_cnt := cnt }

/-- port.c `port_disable`. -/
def port_disable (ctx : PmCtx) (err : Int) (op_err : Nat)
    (inerr_call_err : Int) : PmCtx :=
  let cnt := if ctx.port.state == PmPortState.ISOLATED
             then ctx.isolated_port_cnt - 1 else ctx.isolated_port_cnt
  let ctx := { ctx with isolated_port_cnt := cnt }
  if err ≠ 0 ∨ op_err ≠ 0 then port_in_error ctx inerr_call_err
  else
    { ctx with
      port := { ctx.port with state := PmPortState.DISABLED },
      health := set_health_black,
      flags := { ctx.flags with routing_changed := true } }

/-- port.c `port_enable_polling`. -/
def port_enable_polling (ctx : PmCtx) (err : Int) (op_err : Nat)
    (inerr_call_err : Int) : PmCtx :=
  if err ≠ 0 ∨ op_err ≠ 0 then port_in_error ctx inerr_call_err
  else
    { ctx with
      port := { ctx.port with state := PmPortState.ENABLED },
      flags := { ctx.flags with request_deisolation := true } }

/-- port.c `port_isolate`. -/
def port_isolate (ctx : PmCtx) (err : Int) (op_err : Nat)
    (inerr_call_err : Int) : PmCtx :=
  if err ≠ 0 ∨ op_err ≠ 0 then port_in_error ctx inerr_call_err
  else
    { ctx with
      port := { ctx.port with state := PmPortState.ISOLATED },
      health := set_health_red FportErrorReason.ISOLATED,
      isolated_port_cnt := ctx.isolated_port_cnt + 1 }

/-- port.c `port_deisolate`: the isolated count is dropped before the
mailbox call. -/
def port_deisolate (ctx : PmCtx) (err : Int) (op_err : Nat)
    (inerr_call_err : Int) : PmCtx :=
  let ctx := { ctx with isolated_port_cnt := ctx.isolated_port_cnt - 1 }
  if err ≠ 0 ∨ op_err ≠ 0 then port_in_error ctx inerr_call_err
  else
    { ctx with
      port := { ctx.port with state := PmPortState.RECHECK },
      health := set_health_black }

/-- port.c `port_activate`: on success the port becomes ACTIVE with health
from `set_active_health` (the C code dereferences `p->portinfo`, assumed
populated; a missing `portinfo` defaults to an all-zero record here). -/
def port_activate (ctx : PmCtx) (err : Int) (op_err : Nat)
    (inerr_call_err : Int) : PmCtx :=
  if err ≠ 0 ∨ op_err ≠ 0 then port_in_error ctx inerr_call_err
  else
    { ctx with
      port := { ctx.port with state := PmPortState.ACTIVE },
      health := set_active_health (ctx.port.portinfo.getD
        { neighbor_guid := 0, neighbor_port_number := 0, oldr_nn_lqi := 0,
          link_width_enabled := 0, link_width_active := 0,
          link_width_downgrade_rx_active := 0,
          link_width_downgrade_tx_active := 0, link_speed_enabled := 0,
          link_speed_active := 0 }),
      flags := { ctx.flags with routing_changed := true } }

/-- port.c `port_arm`: on success the port goes to INIT and, if the
neighbor-normal bit of `oldr_nn_lqi` is set, `port_activate` runs with its
own mailbox-call result `(act_err, act_op_err)`. -/
def port_arm (ctx : PmCtx) (err : Int) (op_err : Nat)
    (act_err : Int) (act_op_err : Nat) (inerr_call_err : Int) : PmCtx :=
  if err ≠ 0 ∨ op_err ≠ 0 then port_in_error ctx inerr_call_err
  else
    let ctx := { ctx with port := { ctx.port with state := PmPortState.INIT } }
    let oldr_nn_lqi := (ctx.port.portinfo.getD
      { neighbor_guid := 0, neighbor_port_number := 0, oldr_nn_lqi := 0,
        link_width_enabled := 0, link_width_active := 0,
        link_width_downgrade_rx_active := 0,
        link_width_downgrade_tx_active := 0, link_speed_enabled := 0,
        link_speed_active := 0 }).oldr_nn_lqi
    if (oldr_nn_lqi >>> 4) &&& 1 ≠ 0
    then port_activate ctx act_err act_op_err inerr_call_err
    else ctx

/-- port.c `fsm_IN_ERROR`: IN_ERROR is terminal unless the
`PORT_CONTROL_CLEAR_ERROR` bit is set, in which case the bit is consumed
and the port moves to DISABLED with a rescan requested. -/
def fsm_IN_ERROR (ctx : PmCtx) : PmCtx :=
  if ctx.port.controls.clear_error then
    { ctx with
      port :=
        { ctx.port with
          state := PmPortState.DISABLED
          controls := { ctx.port.controls with clear_error := false } }
      flags := { ctx.flags with rescan_needed := true } }
  else ctx


/-! ## Concrete two-subdevice fabric used by the witnesses -/

/-- portinfo reported by subdevice 1 port 1: neighbor is GUID 2 port 2. -/
def wPortinfoA : Portinfo :=
  { neighbor_guid := 2, neighbor_port_number := 2, oldr_nn_lqi := 0,
    link_width_enabled := 0, link_width_active := 0,
    link_width_downgrade_rx_active := 0, link_width_downgrade_tx_active := 0,
    link_speed_enabled := 0, link_speed_active := 0 }

/-- portinfo reported by subdevice 2 port 2: neighbor is GUID 1 port 1. -/
def wPortinfoB : Portinfo :=
  { neighbor_guid := 1, neighbor_port_number := 1, oldr_nn_lqi := 0,
    link_width_enabled := 0, link_width_active := 0,
    link_width_downgrade_rx_active := 0, link_width_downgrade_tx_active := 0,
    link_speed_enabled := 0, link_speed_active := 0 }

/-- Control bits: enabled and routable. -/
def wControls : PortControls :=
  { enabled := true, routable := true, beaconing := false, clear_error := false }

/-- Fabric port 1 of subdevice 1, ACTIVE. -/
def wPortA : Fport :=
  { lpn := 1, state := PmPortState.ACTIVE, log_state := IB_PORT_ACTIVE,
    controls := wControls, portinfo := some wPortinfoA }

/-- Fabric port 2 of subdevice 2, ACTIVE. -/
def wPortB : Fport :=
  { lpn := 2, state := PmPortState.ACTIVE, log_state := IB_PORT_ACTIVE,
    controls := wControls, portinfo := some wPortinfoB }

/-- A published health record: all ports green. -/
def wCurr : Nat → FportStatus :=
  fun _ => { health := FportHealth.GREEN, issues := 0,
             error_reason := FportErrorReason.NONE }

/-- A caller-side status buffer, distinguishable from `wCurr`. -/
def wBuf : FportStatus :=
  { health := FportHealth.BLACK, issues := 0,
    error_reason := FportErrorReason.NONE }

/-- Subdevice 1 with port 1 and a published health record. -/
def wSdA : Fsubdev :=
  { guid := 1, lpn_fport_map := fun l => if l = 1 then some wPortA else none,
    port_status := some wCurr }

/-- Subdevice 2 with port 2. -/
def wSdB : Fsubdev :=
  { guid := 2, lpn_fport_map := fun l => if l = 2 then some wPortB else none,
    port_status := none }

/-- The routable list holding both subdevices. -/
def wRl : List Fsubdev := [wSdA, wSdB]

/-- An FSM action context on port 1 of subdevice 1. -/
def wCtx : PmCtx :=
  { port := wPortA, health := wBuf,
    flags := { routing_changed := false, rescan_needed := false,
               request_deisolation := false, deisolating := false },
    isolated_port_cnt := 0 }

/-! ## Mailbox engine state (mbdb.c)

The `struct mbdb` fields relevant to the pending-response bookkeeping and
the outbox serialization: the stopping flag, the `pending_new_seq` atomic,
the one-slot `outbox_sem` semaphore (its current count), the
hardware-reported outbox-empty condition, both sequence counters, the
transaction-id allocator, the pending-response (`ibox`) list and the eight
monotonic counters. -/

/-- mbdb.h `struct mbdb_ibox` (driver-side pending-response record). -/
structure MbdbIbox where
  tid : Nat
  op_code : Nat
  rsp_len : Nat
  cw : Nat
  rsp_status : Nat
  has_cb : Bool
deriving Repr, DecidableEq

/-- mbdb.c `enum mbdb_counters` as named fields. -/
structure MbdbCounters where
  posted_requests : Nat
  non_posted_requests : Nat
  received_requests : Nat
  timedout_requests : Nat
  non_error_responses : Nat
  error_responses : Nat
  unmatched_responses : Nat
  timedout_responses : Nat
deriving Repr, DecidableEq

/-- mbdb.c `struct mbdb` (the fields the embedded code reads or writes).
`outbox_sem` is the semaphore count (initialized to 1 by `sema_init`);
`outbox_empty_hw` stands for the OUTBOX_EMPTY bit of the interrupt status
register the peer raises. -/
structure Mbdb where
  stopping : Bool
  pending_new_seq : Bool
  outbox_sem : Nat
  outbox_empty_hw : Bool
  outbox_seqno : Nat
  inbox_seqno : Nat
  inbox_tid : Nat
  ibox_list : List MbdbIbox
  counters : MbdbCounters
deriving Repr, DecidableEq

/-- mbdb.c `mbdb_find_ibox`: first pending record matching
`(tid, op_code)`; a match is unlinked from the list.  Returns the match
(if any) together with the remaining list. -/
def mbdb_find_ibox : List MbdbIbox → Nat → Nat → Option MbdbIbox × List MbdbIbox
  | [], _, _ => (none, [])
  | b :: rest, tid, op =>
    if b.tid = tid ∧ b.op_code = op then (some b, rest)
    else
      let r := mbdb_find_ibox rest tid op
      (r.1, b :: r.2)

/-- What `mbdb_inbox_full_fn` does with an inbound message. -/
inductive InboxEvent
  | pci_timeout
  | delivered (b : MbdbIbox)
  | trap_psc
  | trap_lwd
  | trap_lqi
  | trap_qsfp
  | logged_unmatched
  | logged_request
deriving Repr, DecidableEq

/-- mbdb.c `mbdb_ibox_handle_unmatched`: known unsolicited trap opcodes go
to their handlers; everything else is only logged (as an unmatched
response, or as an unexpected request). -/
def mbdb_ibox_handle_unmatched (msg_type op_code : Nat) : InboxEvent :=
  if op_code = MBOX_OP_CODE_PORT_STATE_CHANGE_TRAP then InboxEvent.trap_psc
  else if op_code = MBOX_OP_CODE_PORT_LWD_TRAP then InboxEvent.trap_lwd
  else if op_code = MBOX_OP_CODE_PORT_LQI_TRAP then InboxEvent.trap_lqi
  else if op_code = MBOX_OP_CODE_QSFP_MGR_FAULT_TRAP then InboxEvent.trap_qsfp
  else if msg_type = MBOX_RESPONSE then InboxEvent.logged_unmatched
  else InboxEvent.logged_request

/-- mbdb.c `mbdb_seq_reset`: on a RESET or FW_START response, zero both
sequence counters if the response status is OK, and release the outbox if
it was held for the serialized exchange (`atomic_cmpxchg(pending,1,0)`
followed by `up`). -/
def mbdb_seq_reset (m : Mbdb) (cw : Nat) : Mbdb :=
  if mbdb_mbox_op_code cw ≠ MBOX_OP_CODE_RESET ∧
     mbdb_mbox_op_code cw ≠ MBOX_OP_CODE_FW_START then m
  else
    let m := if mbdb_mbox_rsp_status cw = MBOX_RSP_STATUS_OK
             then { m with inbox_seqno := 0, outbox_seqno := 0 } else m
    if m.pending_new_seq
    then { m with pending_new_seq := false, outbox_sem := m.outbox_sem + 1 }
    else m

/-- mbdb.c `mbdb_inbox_full_fn` (the inbox worker body): read the control
word (an all-ones readback is a PCI register-read timeout), resynchronize
the receive sequence number, look up a pending record for a response, and
either deliver to the single matched record (copy the response, run
`mbdb_seq_reset`, complete the waiter or queue its callback) or count the
message as unmatched/received and dispatch known unsolicited opcodes. -/
def mbdb_inbox_full_fn (m : Mbdb) (cw : Nat) : Mbdb × InboxEvent :=
  if cw = 2 ^ 64 - 1 then (m, InboxEvent.pci_timeout)
  else if mbdb_mbox_msg_type cw = MBOX_RESPONSE then
    match mbdb_find_ibox m.ibox_list (mbdb_mbox_tid cw) (mbdb_mbox_op_code cw) with
    | (none, _) =>
      ({ m with
         inbox_seqno := mbdb_mbox_seqno_next (mbdb_mbox_seq_no cw)
         counters := { m.counters with
                       unmatched_responses := m.counters.unmatched_responses + 1 } },
       mbdb_ibox_handle_unmatched (mbdb_mbox_msg_type cw) (mbdb_mbox_op_code cw))
    | (some b, rest) =>
      (mbdb_seq_reset
        { m with
          inbox_seqno := mbdb_mbox_seqno_next (mbdb_mbox_seq_no cw)
          ibox_list := rest
          counters :=
            if mbdb_mbox_rsp_status cw = MBOX_RSP_STATUS_OK then
              if mbdb_mbox_seqno_error (mbdb_mbox_seq_no cw) m.inbox_seqno then
                { m.counters with
                  error_responses := m.counters.error_responses + 1 }
              else
                { m.counters with
                  non_error_responses := m.counters.non_error_responses + 1 }
            else
              { m.counters with
                error_responses := m.counters.error_responses + 1 } } cw,
       InboxEvent.delivered
         { b with
           cw := cw
           rsp_status :=
             if mbdb_mbox_seqno_error (mbdb_mbox_seq_no cw) m.inbox_seqno
             then MBOX_RSP_STATUS_SEQ_NO_ERROR
             else mbdb_mbox_rsp_status cw })
  else
    ({ m with
       inbox_seqno := mbdb_mbox_seqno_next (mbdb_mbox_seq_no cw)
       counters := { m.counters with
                     received_requests := m.counters.received_requests + 1 } },
     mbdb_ibox_handle_unmatched (mbdb_mbox_msg_type cw) (mbdb_mbox_op_code cw))

/-- Linux error number `EINTR` (the `down_killable` kill path; the only way
the C caller leaves a never-released semaphore). -/
def EINTR : Int := 4

/-- mbdb.c `mbdb_ibox_acquire` for a non-posted call: allocate a record
keyed by the next transaction id (monotonically increasing), link it on the
pending list.  `kzalloc` zeroes the `cw`/`rsp_status` fields. -/
def mbdb_ibox_acquire (m : Mbdb) (op_code rsp_len : Nat) (has_cb : Bool) :
    MbdbIbox × Mbdb :=
  let b : MbdbIbox := { tid := m.inbox_tid, op_code := op_code,
                        rsp_len := rsp_len, cw := 0, rsp_status := 0,
                        has_cb := has_cb }
  (b, { m with inbox_tid := m.inbox_tid + 1, ibox_list := m.ibox_list ++ [b] })

/-- mbdb.c `mbdb_outbox_acquire`: take the one-slot outbox semaphore (a
zero count blocks the caller in C; the only exit from that wait is the
`down_killable` kill path, `-EINTR`), bail out when stopping, count the
request, wait for the peer to signal outbox-empty (`-ETIMEDOUT` after the
bounded wait otherwise), splice the next sequence number into bits [15:10]
of the control word (the opcode and posted fields in bits [9:0] are
unaffected by the splice, so they are read from the incoming word), reset
both sequence counters immediately for a posted RESET, and flag
`pending_new_seq` for FW_START and non-posted RESET so the outbox stays
held until that exchange resolves.  Returns the control word to transmit
and the new state. -/
def mbdb_outbox_acquire (m : Mbdb) (cw : Nat) : Except Int Nat × Mbdb :=
  if m.outbox_sem = 0 then (Except.error (-EINTR), m)
  else
    let m1 := { m with outbox_sem := m.outbox_sem - 1 }
    if m1.stopping then
      (Except.error (-ENODEV), { m1 with outbox_sem := m1.outbox_sem + 1 })
    else
      let m2 := if mbdb_mbox_is_posted cw = MBOX_NO_RESPONSE_REQUESTED
                then { m1 with counters :=
                       { m1.counters with
                         posted_requests := m1.counters.posted_requests + 1 } }
                else { m1 with counters :=
                       { m1.counters with
                         non_posted_requests := m1.counters.non_posted_requests + 1 } }
      if ¬ m2.outbox_empty_hw then
        (Except.error (-ETIMEDOUT),
          { m2 with
            counters := { m2.counters with
                          timedout_requests := m2.counters.timedout_requests + 1 }
            outbox_sem := m2.outbox_sem + 1 })
      else
        let seq := m2.outbox_seqno
        let m3 := { m2 with outbox_seqno := mbdb_mbox_seqno_next seq }
        let cw2 := cw ||| ((seq &&& MBOX_CW_SEQ_NO_MASK) <<< MBOX_CW_SEQ_NO_SHIFT)
        let m4 := if mbdb_mbox_op_code cw = MBOX_OP_CODE_RESET ∧
                     mbdb_mbox_is_posted cw = MBOX_NO_RESPONSE_REQUESTED
                  then { m3 with inbox_seqno := 0, outbox_seqno := 0 } else m3
        let m5 := if mbdb_mbox_op_code cw = MBOX_OP_CODE_FW_START ∨
                     (mbdb_mbox_op_code cw = MBOX_OP_CODE_RESET ∧
                      mbdb_mbox_is_posted cw = MBOX_RESPONSE_REQUESTED)
                  then { m4 with pending_new_seq := true } else m4
        (Except.ok cw2, m5)

/-- mbdb.c `mbdb_outbox_release`: signal inbox-full to the peer and release
the semaphore, unless a serialized FW_START/RESET exchange holds the outbox
(`pending_new_seq`). -/
def mbdb_outbox_release (m : Mbdb) : Mbdb :=
  if ¬ m.pending_new_seq then { m with outbox_sem := m.outbox_sem + 1 } else m

/-- Remove the given record from the list (`list_del` of the node; a no-op
when the node is no longer linked). -/
def removeFirstIbox : List MbdbIbox → MbdbIbox → List MbdbIbox
  | [], _ => []
  | x :: rest, b => if x = b then rest else x :: removeFirstIbox rest b

/-- mbdb.c `mbdb_ibox_wait` when the response never arrives
(`wait_for_completion_timeout` expires): unlink the pending record, count a
timed-out response, release the outbox if this was the serialized
FW_START/RESET exchange still holding it, and fail with `-ETIMEDOUT`. -/
def mbdb_ibox_wait_no_response (m : Mbdb) (b : MbdbIbox) : Int × Mbdb :=
  if m.stopping then (-ENODEV, m)
  else
    let m1 := { m with
                ibox_list := removeFirstIbox m.ibox_list b
                counters := { m.counters with
                              timedout_responses := m.counters.timedout_responses + 1 } }
    let m2 :=
      if (b.op_code = MBOX_OP_CODE_FW_START ∨
          b.op_code = MBOX_OP_CODE_RESET) ∧ m1.pending_new_seq
      then
        { m1 with
          pending_new_seq := false
          outbox_sem := m1.outbox_sem + 1 }
      else m1
    (-ETIMEDOUT, m2)

/-- ops.c `mbdb_op_build_cw_and_acquire_ibox` followed by `ops_execute`,
for a non-posted call without callback whose response never arrives:
acquire the pending record and build the control word, acquire the outbox,
transmit (hardware writes carry no driver state), release the outbox, wait
until the timeout expires, and free the record. -/
def ops_execute_no_response (m : Mbdb) (op_code params_len : Nat) : Int × Mbdb :=
  let acq := mbdb_ibox_acquire m op_code 0 false
  let b := acq.1
  let m1 := acq.2
  let cw := build_cw op_code MBOX_REQUEST MBOX_RESPONSE_REQUESTED 0 params_len b.tid
  match mbdb_outbox_acquire m1 cw with
  | (Except.error e, m2) => (e, m2)
  | (Except.ok _, m2) =>
    let m3 := mbdb_outbox_release m2
    mbdb_ibox_wait_no_response m3 b

/-! ## The outbox as a transition system (C5)

The serialization state of one subdevice's outbox: the semaphore count,
the number of threads holding the slot (between a successful
`down(&outbox_sem)` and the matching `up`), and the `pending_new_seq`
flag.  Steps mirror the four code paths that touch the semaphore. -/

/-- The outbox serialization state of one subdevice. -/
structure OutboxLock where
  sem : Nat
  holders : Nat
  pending_new_seq : Bool
deriving Repr, DecidableEq

/-- Steps of the outbox serialization protocol:
* `acquire`: `mbdb_outbox_acquire` passes `down(&outbox_sem)` (possible
  only when the count is positive) and, for FW_START or a non-posted RESET
  (`serialized`), sets `pending_new_seq`;
* `release`: `mbdb_outbox_release` sees `pending_new_seq` clear and ups the
  semaphore;
* `release_held`: `mbdb_outbox_release` sees `pending_new_seq` set and
  leaves the semaphore held for the serialized exchange;
* `unblock`: `mbdb_seq_reset` (on the FW_START/RESET response) or the
  `mbdb_ibox_wait` timeout path wins `atomic_cmpxchg(pending_new_seq,1,0)`
  and ups the semaphore, ending the serialized exchange. -/
inductive OutboxStep : OutboxLock → OutboxLock → Prop
  | acquire (s : OutboxLock) (serialized : Bool) (h : 1 ≤ s.sem) :
      OutboxStep s { sem := s.sem - 1, holders := s.holders + 1,
                     pending_new_seq := s.pending_new_seq || serialized }
  | release (s : OutboxLock) (h1 : 1 ≤ s.holders)
      (h2 : s.pending_new_seq = false) :
      OutboxStep s { sem := s.sem + 1, holders := s.holders - 1,
                     pending_new_seq := false }
  | release_held (s : OutboxLock) (h1 : 1 ≤ s.holders)
      (h2 : s.pending_new_seq = true) :
      OutboxStep s s
  | unblock (s : OutboxLock) (h : s.pending_new_seq = true) :
      OutboxStep s { sem := s.sem + 1, holders := s.holders - 1,
                     pending_new_seq := false }

/-- mbdb.c `create_mbdb`: `sema_init(&mbdb->outbox_sem, 1)`, nothing held,
no serialized exchange pending. -/
def outbox_init : OutboxLock := { sem := 1, holders := 0, pending_new_seq := false }

/-- States reachable from the initial outbox state. -/
def OutboxReachable (s : OutboxLock) : Prop :=
  Relation.ReflTransGen OutboxStep outbox_init s

/-- A quiescent mailbox with an empty pending list, used by the witnesses. -/
def wCounters0 : MbdbCounters :=
  { posted_requests := 0, non_posted_requests := 0, received_requests := 0,
    timedout_requests := 0, non_error_responses := 0, error_responses := 0,
    unmatched_responses := 0, timedout_responses := 0 }

/-- A quiescent mailbox state: not stopping, outbox free and empty, no
pending records. -/
def wM0 : Mbdb :=
  { stopping := false, pending_new_seq := false, outbox_sem := 1,
    outbox_empty_hw := true, outbox_seqno := 0, inbox_seqno := 0,
    inbox_tid := 0, ibox_list := [], counters := wCounters0 }

/-- A mailbox with one pending record (tid 0, opcode 7), used by the C6
witness. -/
def wIbox : MbdbIbox :=
  { tid := 0, op_code := 7, rsp_len := 0, cw := 0, rsp_status := 0,
    has_cb := false }

/-- The mailbox holding `wIbox` on its pending list. -/
def wM1 : Mbdb :=
  { stopping := false, pending_new_seq := false, outbox_sem := 1,
    outbox_empty_hw := true, outbox_seqno := 0, inbox_seqno := 0,
    inbox_tid := 1, ibox_list := [wIbox], counters := wCounters0 }

/-- The delivered record of the C6 witness: `wIbox` with the response
control word and OK status filled in. -/
def wIboxDone : MbdbIbox :=
  { tid := 0, op_code := 7, rsp_len := 0, cw := 7, rsp_status := 0,
    has_cb := false }

/-- The mailbox after `wM1` processes the response: record delivered and
unlinked, receive sequence number advanced, one non-error response
counted. -/
def wM2 : Mbdb :=
  { stopping := false, pending_new_seq := false, outbox_sem := 1,
    outbox_empty_hw := true, outbox_seqno := 0, inbox_seqno := 1,
    inbox_tid := 1, ibox_list := [],
    counters := { wCounters0 with non_error_responses := 1 } }

/-!
## Hardware programming stage (routing_io.c)
-/

/-- `MBOX_WRITE_DATA_SIZE_IN_BYTES` expressed in u64 entries (2032 / 8 = 254):
the per-chunk capacity of the LUT copy loop in `fidgen_write_port_table`. -/
def MBOX_WRITE_DATA_QWORDS : Nat := MBOX_WRITE_DATA_SIZE_IN_BYTES / 8

/-- `struct routing_uft` (routing_topology.h): one mgmt UFT block plus an
xarray of bridge UFT blocks indexed by DPA index, modelled as an
association list. -/
structure RoutingUft where
  mgmt : List Nat
  bridges : List (Nat × List Nat)
deriving DecidableEq

/-- `xa_load` on the bridges xarray: the entry stored at index `i`
(first match in the association-list model). -/
def xa_load (xs : List (Nat × List Nat)) (i : Nat) : Option (List Nat) :=
  (xs.find? (fun e => e.1 == i)).map (fun e => e.2)

/-- `struct routing_fidgen` (routing_topology.h): the FID-generation CSR values
plus the DPA→DFID lookup table (`map`, a u64 array). -/
structure RoutingFidgen where
  mask_a : Nat
  shift_a : Nat
  mask_b : Nat
  shift_b : Nat
  mask_h : Nat
  shift_h : Nat
  modulo : Nat
  mask_d : Nat
  map : List Nat
deriving DecidableEq

/-- The slice of `struct fsubdev` (and its topology) that the hardware
programming stage in routing_io.c reads and writes: `sd->switchinfo.lft_top`,
`sd->routing.{uft, uft_next, fidgen, fidgen_next, fid_base}`, the fabric
ports' logical states (`(lpn, log_state)` for each present fabric port), the
bridge lpns, `sd->fdev->pd->dpa.{pkg_offset, pkg_size}`, and
`topo->max_dpa_index`. -/
structure SdIo where
  switchinfo_lft_top : Nat
  uft : Option RoutingUft
  uft_next : RoutingUft
  fidgen : Option RoutingFidgen
  fidgen_next : Option RoutingFidgen
  fid_base : Nat
  fabric_ports : List (Nat × Nat)
  bridge_lpns : List Nat
  pkg_offset : Nat
  pkg_size : Nat
  max_dpa_index : Nat
deriving DecidableEq

/-- One hardware write issued by the programming stage: an
`ops_switchinfo_set`, an `ops_rpipe_set`, an `ops_csr_raw_write`, or an
`ops_linkmgr_port_link_state_set`. -/
inductive HwWrite
  | switchinfoSet (lft_top : Nat)
  | rpipeSet (port_mask start_index num_entries : Nat) (data : List Nat)
  | csrWrite (addr : Nat) (data : List Nat)
  | linkStateSet (lpn new_state : Nat)
deriving DecidableEq

/-- `get_raw_port_base` (csr.h): CSR base address of a port, with the
region-1 offset for bridge ports. -/
def get_raw_port_base (port : Nat) : Nat :=
  (if PORT_BRIDGE_START ≤ port ∧ port ≤ PORT_BRIDGE_END then CSR_REGION1_OFFSET else 0) +
    CSR_PORTS_BASE + (port - 1) * CSR_PORT_OFFSET

/-- `block_to_rpipe` (routing_io.c): expand a nibble-packed UFT block into the
byte-per-entry rpipe payload, widening the 4-bit invalid sentinel to the
8-bit one. -/
def block_to_rpipe (block : List Nat) (len : Nat) : List Nat :=
  (List.range len).map (fun i =>
    if routing_uft_entry_get block i = ROUTING_UFT_INVALID_PORT4 then ROUTING_UFT_INVALID_PORT8
    else routing_uft_entry_get block i)

/-- `rpipe_clear_block` (routing_io.c): one rpipe write filling the range with
the invalid-port sentinel; `-EINVAL` if the range exceeds the op buffer. -/
def rpipe_clear_block (port_mask fid_base fid_range : Nat) : Except Int (List HwWrite) :=
  if fid_range > MAX_UFT_ENTRIES then Except.error (-EINVAL)
  else Except.ok [HwWrite.rpipeSet port_mask fid_base fid_range
    (List.replicate fid_range ROUTING_UFT_INVALID_PORT8)]

/-- `rpipe_write_block` (routing_io.c): one rpipe write carrying the expanded
block; `-EINVAL` if the range exceeds the op buffer. -/
def rpipe_write_block (port_mask : Nat) (block : List Nat) (fid_base fid_range : Nat) :
    Except Int (List HwWrite) :=
  if fid_range > MAX_UFT_ENTRIES then Except.error (-EINVAL)
  else Except.ok [HwWrite.rpipeSet port_mask fid_base fid_range (block_to_rpipe block fid_range)]

/-- `rpipe_bridge_changed` (routing_io.c): a bridge block is written unless the
previous UFT exists, holds a block at the same index, and the blocks compare
equal (memcmp over `ROUTING_FID_BLOCK_SIZE` bytes). -/
def rpipe_bridge_changed (block_curr : List Nat) (block_idx : Nat)
    (uft_prev : Option RoutingUft) : Bool :=
  match uft_prev with
  | none => true
  | some prev =>
    match xa_load prev.bridges block_idx with
    | none => true
    | some block_prev => block_curr != block_prev

/-- Loop body of `rpipe_write_bridge_update` (routing_io.c): walk the new UFT's
bridge blocks, writing each block that changed relative to the previous UFT,
stopping at the first error. -/
def rpipe_write_bridge_update_go (uft_prev : Option RoutingUft) (port_mask : Nat) :
    List (Nat × List Nat) → Except Int (List HwWrite)
  | [] => Except.ok []
  | e :: rest =>
    if rpipe_bridge_changed e.2 e.1 uft_prev then
      match rpipe_write_block port_mask e.2
          (ROUTING_FID_BLOCK_BASE + e.1 * ROUTING_FID_BLOCK_SIZE) ROUTING_FID_BLOCK_SIZE with
      | Except.error err => Except.error err
      | Except.ok w =>
        match rpipe_write_bridge_update_go uft_prev port_mask rest with
        | Except.error err => Except.error err
        | Except.ok ws => Except.ok (w ++ ws)
    else rpipe_write_bridge_update_go uft_prev port_mask rest

/-- `rpipe_write_bridge_update` (routing_io.c). -/
def rpipe_write_bridge_update (sd : SdIo) (port_mask : Nat) : Except Int (List HwWrite) :=
  rpipe_write_bridge_update_go sd.uft port_mask sd.uft_next.bridges

/-- Loop body of `rpipe_write_bridge_remove` (routing_io.c): walk the previous
UFT's bridge blocks, clearing each block absent from the new UFT, stopping at
the first error. -/
def rpipe_write_bridge_remove_go (uft_next : RoutingUft) (port_mask : Nat) :
    List (Nat × List Nat) → Except Int (List HwWrite)
  | [] => Except.ok []
  | e :: rest =>
    if (xa_load uft_next.bridges e.1).isSome then
      rpipe_write_bridge_remove_go uft_next port_mask rest
    else
      match rpipe_clear_block port_mask
          (ROUTING_FID_BLOCK_BASE + e.1 * ROUTING_FID_BLOCK_SIZE) ROUTING_FID_BLOCK_SIZE with
      | Except.error err => Except.error err
      | Except.ok w =>
        match rpipe_write_bridge_remove_go uft_next port_mask rest with
        | Except.error err => Except.error err
        | Except.ok ws => Except.ok (w ++ ws)

/-- The port mask computed at the top of `rpipe_write` (routing_io.c): the
cport and bridge masks, or-ed with the lpn VALUE (not its bit) of every
present fabric port whose logical state is at least `IB_PORT_INIT` —
`port_mask |= lpn` in the source. -/
def rpipe_port_mask (sd : SdIo) : Nat :=
  sd.fabric_ports.foldl
    (fun pm e => if IB_PORT_INIT ≤ e.2 then pm ||| e.1 else pm)
    (PORT_CPORT_MASK ||| PORT_BRIDGE_MASK)

/-- `rpipe_write` (routing_io.c): unconditionally write the mgmt block over
`ROUTING_MAX_DEVICES` entries, then the changed bridge blocks, then (if a
previous UFT exists) clear removed bridge blocks. -/
def rpipe_write (sd : SdIo) : Except Int (List HwWrite) :=
  match rpipe_write_block (rpipe_port_mask sd) sd.uft_next.mgmt
      ROUTING_FID_CPORT_BASE ROUTING_MAX_DEVICES with
  | Except.error err => Except.error err
  | Except.ok w1 =>
    match rpipe_write_bridge_update sd (rpipe_port_mask sd) with
    | Except.error err => Except.error err
    | Except.ok w2 =>
      match sd.uft with
      | none => Except.ok (w1 ++ w2)
      | some prev =>
        match rpipe_write_bridge_remove_go sd.uft_next (rpipe_port_mask sd) prev.bridges with
        | Except.error err => Except.error err
        | Except.ok w3 => Except.ok (w1 ++ w2 ++ w3)

/-- `build_fidgen_block` (routing_io.c): the 12-u64 payload written at
`CSR_FIDGEN_MASK_A`; entry 9 is the FID base, invariant across
current/next. -/
def build_fidgen_block (sd : SdIo) (fidgen : RoutingFidgen) : List Nat :=
  [fidgen.mask_a, fidgen.shift_a, fidgen.mask_b, fidgen.shift_b, 0, 0,
   fidgen.mask_h, fidgen.shift_h, fidgen.modulo,
   sd.fid_base >>> ROUTING_DPA_DFID_MAP_SHIFT, fidgen.mask_d, 0]

/-- `fidgen_write_port_pkgaddr` (routing_io.c): unconditionally write the
package address range CSR; `FIELD_PREP(GENMASK(18, 1), off)` is
`(off % 2 ^ 18) <<< 1` and `FIELD_PREP(GENMASK(29, 20), size)` is
`(size % 2 ^ 10) <<< 20`. -/
def fidgen_write_port_pkgaddr (sd : SdIo) (port_base : Nat) : List HwWrite :=
  [HwWrite.csrWrite (port_base + CSR_BT_PKG_ADDR_RANGE)
    [((sd.pkg_offset % 2 ^ 18) <<< 1) ||| ((sd.pkg_size % 2 ^ 10) <<< 20)]]

/-- `fidgen_write_port` (routing_io.c): write the fidgen block only if no
current fidgen exists or its block differs from the next one (memcmp delta),
then always write the package address range. -/
def fidgen_write_port (sd : SdIo) (fg_next : RoutingFidgen) (port : Nat) : List HwWrite :=
  (match sd.fidgen with
   | none =>
     [HwWrite.csrWrite (get_raw_port_base port + CSR_FIDGEN_MASK_A) (build_fidgen_block sd fg_next)]
   | some fg =>
     if build_fidgen_block sd fg = build_fidgen_block sd fg_next then []
     else
       [HwWrite.csrWrite (get_raw_port_base port + CSR_FIDGEN_MASK_A)
         (build_fidgen_block sd fg_next)]) ++
  fidgen_write_port_pkgaddr sd (get_raw_port_base port)

/-- The chunk loop of `fidgen_write_port_table` (routing_io.c), counted in u64
entries: both the remaining byte count `(max_dpa_index + 1) * 8` and the chunk
bound `MBOX_WRITE_DATA_SIZE_IN_BYTES = 2032` are multiples of 8, so the
byte-level memcmp/copy is entry-aligned. Each chunk is written unless the
current map exists and its chunk compares equal. -/
def fidgen_lut_writes (addr : Nat) (data : Option (List Nat)) (data_next : List Nat)
    (remaining : Nat) : List HwWrite :=
  if _h : remaining = 0 then []
  else
    (match data with
     | none =>
       [HwWrite.csrWrite addr (data_next.take (min remaining MBOX_WRITE_DATA_QWORDS))]
     | some d =>
       if d.take (min remaining MBOX_WRITE_DATA_QWORDS) =
           data_next.take (min remaining MBOX_WRITE_DATA_QWORDS) then []
       else [HwWrite.csrWrite addr (data_next.take (min remaining MBOX_WRITE_DATA_QWORDS))]) ++
    fidgen_lut_writes (addr + min remaining MBOX_WRITE_DATA_QWORDS * 8)
      (data.map (fun d => d.drop (min remaining MBOX_WRITE_DATA_QWORDS)))
      (data_next.drop (min remaining MBOX_WRITE_DATA_QWORDS))
      (remaining - min remaining MBOX_WRITE_DATA_QWORDS)
termination_by remaining
decreasing_by
  have h254 : MBOX_WRITE_DATA_QWORDS = 254 := by decide
  omega

/-- `fidgen_write_port_table` (routing_io.c): chunked diff-and-write of the
DPA→DFID LUT at `CSR_FIDGEN_LUT_BASE`. -/
def fidgen_write_port_table (sd : SdIo) (fg_next : RoutingFidgen) (port : Nat) : List HwWrite :=
  fidgen_lut_writes (get_raw_port_base port + CSR_FIDGEN_LUT_BASE)
    (sd.fidgen.map RoutingFidgen.map) fg_next.map (sd.max_dpa_index + 1)

/-- `activate_port` (routing_io.c): unconditionally request `IB_PORT_ACTIVE`. -/
def activate_port (lpn : Nat) : List HwWrite :=
  [HwWrite.linkStateSet lpn IB_PORT_ACTIVE]

/-- `bridge_write` (routing_io.c): `-EINVAL` without a next fidgen; otherwise,
for each bridge lpn in order: fidgen registers (diffed), LUT (diffed),
package address (always), activate (always). -/
def bridge_write (sd : SdIo) : Except Int (List HwWrite) :=
  match sd.fidgen_next with
  | none => Except.error (-EINVAL)
  | some fg_next =>
    Except.ok (sd.bridge_lpns.foldr
      (fun lpn acc =>
        fidgen_write_port sd fg_next lpn ++
        fidgen_write_port_table sd fg_next lpn ++
        activate_port lpn ++ acc) [])

/-- `switchinfo_write` (routing_io.c): unconditionally write switchinfo with
`lft_top` raised to `ROUTING_UFT_SIZE - 1` and commit it to the sd. -/
def switchinfo_write (sd : SdIo) : List HwWrite × SdIo :=
  ([HwWrite.switchinfoSet (ROUTING_UFT_SIZE - 1)],
   { sd with switchinfo_lft_top := ROUTING_UFT_SIZE - 1 })

/-- Modelled from the spec: `routing_update` calls `routing_uft_update` and
`routing_fidgen_update` (declared in routing_topology.h; their definitions are
outside src/), which per the spec make "next" atomically replace "current"
for the forwarding tables and fidgen state. -/
def routing_update (sd : SdIo) : SdIo :=
  { sd with
      uft := some sd.uft_next
      fidgen := sd.fidgen_next }

/-- `io_work_fn` (routing_io.c): switchinfo, rpipe, bridge writes in order;
on success promote next→current; on error the sd transitions to error and
tables are not promoted (the error is the first component). -/
def io_work_fn (sd : SdIo) : Except Int (List HwWrite) × SdIo :=
  match rpipe_write (switchinfo_write sd).2 with
  | Except.error err => (Except.error err, (switchinfo_write sd).2)
  | Except.ok w1 =>
    match bridge_write (switchinfo_write sd).2 with
    | Except.error err => (Except.error err, (switchinfo_write sd).2)
    | Except.ok w2 =>
      (Except.ok ((switchinfo_write sd).1 ++ w1 ++ w2),
       routing_update (switchinfo_write sd).2)

/- witness state: a completed sweep with no topology change
(current tables equal next tables) -/

def wUft2 : RoutingUft := { mgmt := [], bridges := [] }

def wFg2 : RoutingFidgen :=
  { mask_a := 0, shift_a := 0, mask_b := 0, shift_b := 0, mask_h := 0, shift_h := 0,
    modulo := 0, mask_d := 0, map := [] }

def wSd2 : SdIo :=
  { switchinfo_lft_top := 0
    uft := some wUft2
    uft_next := wUft2
    fidgen := some wFg2
    fidgen_next := some wFg2
    fid_base := 0
    fabric_ports := []
    bridge_lpns := [9, 10, 11, 12]
    pkg_offset := 0
    pkg_size := 0
    max_dpa_index := 0 }

/-- The exact writes the second sweep issues on `wSd2`. -/
def wWrites2 : List HwWrite :=
  [HwWrite.switchinfoSet (ROUTING_UFT_SIZE - 1),
   HwWrite.rpipeSet 0x1e01 ROUTING_FID_CPORT_BASE ROUTING_MAX_DEVICES
     (List.replicate ROUTING_MAX_DEVICES 0),
   HwWrite.csrWrite 0x32100028 [0], HwWrite.linkStateSet 9 IB_PORT_ACTIVE,
   HwWrite.csrWrite 0x32500028 [0], HwWrite.linkStateSet 10 IB_PORT_ACTIVE,
   HwWrite.csrWrite 0x32900028 [0], HwWrite.linkStateSet 11 IB_PORT_ACTIVE,
   HwWrite.csrWrite 0x32d00028 [0], HwWrite.linkStateSet 12 IB_PORT_ACTIVE]

/-! # Theorems -/

/-! ## Bit-manipulation helpers -/

theorem land_mask_eq_mod (x n : Nat) : x &&& (2 ^ n - 1) = x % 2 ^ n :=
  Nat.and_pow_two_sub_one_eq_mod x n

theorem lor_shift_add (b a s : Nat) (h : a < 2 ^ s) :
    (b <<< s) ||| a = b * 2 ^ s + a := by
  apply Nat.eq_of_testBit_eq
  intro i
  have hrhs : b * 2 ^ s + a = 2 ^ s * b + a := by rw [Nat.mul_comm]
  rw [Nat.testBit_lor, hrhs, Nat.testBit_mul_pow_two_add b h i]
  rcases Nat.lt_or_ge i s with hi | hi
  · simp [Nat.testBit_shiftLeft, Nat.not_le.mpr hi, hi]
  · have ha : a.testBit i = false :=
      Nat.testBit_lt_two_pow (lt_of_lt_of_le h (Nat.pow_le_pow_right (by norm_num) hi))
    simp [Nat.testBit_shiftLeft, hi, Nat.not_lt.mpr hi, ha]

theorem land_shiftLeft (x m s : Nat) : x &&& (m <<< s) = ((x >>> s) &&& m) <<< s := by
  apply Nat.eq_of_testBit_eq
  intro i
  rw [Nat.testBit_land, Nat.testBit_shiftLeft, Nat.testBit_shiftLeft]
  rcases Nat.lt_or_ge i s with hi | hi
  · simp [Nat.not_le.mpr hi]
  · simp only [hi, ge_iff_le, decide_eq_true_eq, Bool.true_and, decide_True,
      Nat.testBit_land, Nat.testBit_shiftRight, Nat.add_sub_cancel' hi]

theorem land_255 (x : Nat) : x &&& 255 = x % 256 := by
  have h := land_mask_eq_mod x 8
  norm_num at h
  exact h

theorem land_63 (x : Nat) : x &&& 63 = x % 64 := by
  have h := land_mask_eq_mod x 6
  norm_num at h
  exact h

theorem land_1 (x : Nat) : x &&& 1 = x % 2 :=
  Nat.and_one_is_mod x

theorem land_4095 (x : Nat) : x &&& 4095 = x % 4096 := by
  have h := land_mask_eq_mod x 12
  norm_num at h
  exact h

theorem land_u32max (x : Nat) : x &&& 4294967295 = x % 4294967296 := by
  have h := land_mask_eq_mod x 32
  norm_num at h
  exact h

theorem land_15 (x : Nat) : x &&& 15 = x % 16 := by
  have h := land_mask_eq_mod x 4
  norm_num at h
  exact h

theorem land_240 (x : Nat) : x &&& 240 = x / 16 % 16 * 16 := by
  have h1 : (240 : Nat) = 15 <<< 4 := by decide
  rw [h1, land_shiftLeft]
  have h2 := land_mask_eq_mod (x >>> 4) 4
  norm_num at h2
  rw [h2, Nat.shiftLeft_eq, Nat.shiftRight_eq_div_pow]

theorem shiftRight_one (x : Nat) : x >>> 1 = x / 2 := by
  rw [Nat.shiftRight_eq_div_pow]

theorem pow_two_four : (2 : Nat) ^ 4 = 16 := by norm_num

theorem pow_two_eight : (2 : Nat) ^ 8 = 256 := by norm_num

/-! ## The control word round-trips (C3) -/

theorem build_cw_eq (op req posted seq len tid : Nat) :
    build_cw op req posted seq len tid =
      op % 256 + req % 2 * 256 + posted % 2 * 512 + seq % 64 * 1024 +
        len % 4096 * 65536 + tid % 4294967296 * 4294967296 := by
  simp only [build_cw, MBOX_CW_OPCODE_MASK, MBOX_CW_OPCODE_SHIFT,
    MBOX_CW_IS_REQ_MASK, MBOX_CW_IS_REQ_SHIFT, MBOX_CW_POSTED_MASK,
    MBOX_CW_POSTED_SHIFT, MBOX_CW_SEQ_NO_MASK, MBOX_CW_SEQ_NO_SHIFT,
    MBOX_CW_PARAMS_LEN_MASK, MBOX_CW_PARAMS_LEN_SHIFT, MBOX_CW_TID_MASK,
    MBOX_CW_TID_SHIFT]
  rw [land_255, land_1 req, land_1 posted, land_63, land_4095, land_u32max]
  rw [Nat.shiftLeft_zero]
  rw [Nat.lor_comm (op % 256), lor_shift_add _ _ 8 (by omega)]
  rw [Nat.lor_comm _ ((posted % 2) <<< 9), lor_shift_add _ _ 9 (by norm_num; omega)]
  rw [Nat.lor_comm _ ((seq % 64) <<< 10), lor_shift_add _ _ 10 (by norm_num; omega)]
  rw [Nat.lor_comm _ ((len % 4096) <<< 16), lor_shift_add _ _ 16 (by norm_num; omega)]
  rw [Nat.lor_comm _ ((tid % 4294967296) <<< 32), lor_shift_add _ _ 32 (by norm_num; omega)]
  norm_num
  omega

/-- C3: for every opcode in [0,255], message type in {request,response},
posted flag, sequence number in [0,63], parameter length in [0,4095] and
32-bit transaction id, decoding the control word built by `build_cw` with
the `mbdb_mbox_*` accessors returns exactly those field values (and a zero
response-status field, which `build_cw` does not populate), per the layout
[7:0] opcode, [8] request/response, [9] posted, [15:10] sequence number,
[27:16] parameter length, [31:28] response status, [63:32] transaction
id. -/
theorem C3_control_word_roundtrip (op req posted seq len tid : Nat)
    (hop : op < 256) (hreq : req < 2) (hposted : posted < 2) (hseq : seq < 64)
    (hlen : len < 4096) (htid : tid < 4294967296) :
    mbdb_mbox_op_code (build_cw op req posted seq len tid) = op ∧
    mbdb_mbox_msg_type (build_cw op req posted seq len tid) = req ∧
    mbdb_mbox_is_posted (build_cw op req posted seq len tid) = posted ∧
    mbdb_mbox_seq_no (build_cw op req posted seq len tid) = seq ∧
    mbdb_mbox_params_len (build_cw op req posted seq len tid) = len ∧
    mbdb_mbox_tid (build_cw op req posted seq len tid) = tid ∧
    mbdb_mbox_rsp_status (build_cw op req posted seq len tid) = 0 := by
  rw [build_cw_eq]
  simp only [mbdb_mbox_op_code, mbdb_mbox_msg_type, mbdb_mbox_is_posted,
    mbdb_mbox_seq_no, mbdb_mbox_params_len, mbdb_mbox_tid, mbdb_mbox_rsp_status,
    MBOX_CW_OPCODE_MASK, MBOX_CW_OPCODE_SHIFT, MBOX_CW_IS_REQ_MASK,
    MBOX_CW_IS_REQ_SHIFT, MBOX_CW_POSTED_MASK, MBOX_CW_POSTED_SHIFT,
    MBOX_CW_SEQ_NO_MASK, MBOX_CW_SEQ_NO_SHIFT, MBOX_CW_PARAMS_LEN_MASK,
    MBOX_CW_PARAMS_LEN_SHIFT, MBOX_CW_RSP_STATUS_MASK, MBOX_CW_RSP_STATUS_SHIFT,
    MBOX_CW_TID_MASK, MBOX_CW_TID_SHIFT, Nat.shiftRight_eq_div_pow]
  rw [land_255, land_1, land_1, land_63, land_4095, land_u32max, land_15]
  norm_num
  refine ⟨by omega, by omega, by omega, by omega, by omega, by omega, by omega⟩

/-- Witness for C3 at opcode 5, a non-posted request, sequence number 7,
length 100, transaction id 3. -/
theorem C3_control_word_roundtrip_witness :
    ((5 : Nat) < 256 ∧ (1 : Nat) < 2 ∧ (0 : Nat) < 2 ∧ (7 : Nat) < 64 ∧
      (100 : Nat) < 4096 ∧ (3 : Nat) < 4294967296) ∧
    mbdb_mbox_op_code (build_cw 5 1 0 7 100 3) = 5 :=
  ⟨⟨by decide, by decide, by decide, by decide, by decide, by decide⟩,
    (C3_control_word_roundtrip 5 1 0 7 100 3 (by decide) (by decide) (by decide)
      (by decide) (by decide) (by decide)).1⟩

/-! ## UFT entry set/get frame property (C9) -/

theorem set_byte_odd (b p : Nat) :
    ((b &&& 240) ||| (p &&& 15)) % 2 ^ 8 = 16 * (b / 16 % 16) + p % 16 := by
  have h4 : b / 16 % 16 * 16 = (b / 16 % 16) <<< 4 := by
    rw [Nat.shiftLeft_eq, pow_two_four]
  rw [land_240, land_15, h4, lor_shift_add _ (p % 16) 4 (by omega),
    pow_two_four, pow_two_eight]
  omega

theorem set_byte_even (b p : Nat) :
    ((p <<< 4) ||| (b &&& 15)) % 2 ^ 8 = 16 * (p % 16) + b % 16 := by
  rw [land_15, lor_shift_add p (b % 16) 4 (by omega), pow_two_four, pow_two_eight]
  omega

theorem get_nib_odd (x : Nat) : (x >>> 0) &&& 15 = x % 16 := by
  rw [Nat.shiftRight_zero, land_15]

theorem get_nib_even (x : Nat) : (x >>> 4) &&& 15 = x / 16 % 16 := by
  rw [Nat.shiftRight_eq_div_pow, land_15]

theorem arrGet_arrSet_self (a : List Nat) (k v : Nat) (h : k < a.length) :
    arrGet (arrSet a k v) k = v := by
  simp [arrGet, arrSet, List.getD_eq_getElem?_getD, List.getElem?_set_self h]

theorem arrGet_arrSet_ne (a : List Nat) (k m v : Nat) (h : k ≠ m) :
    arrGet (arrSet a k v) m = arrGet a m := by
  simp [arrGet, arrSet, List.getD_eq_getElem?_getD, List.getElem?_set_ne h]

/-- C9: `routing_uft_entry_set` writes only the addressed nibble: reading
offset `i` back yields `port & 0xf`, and every other offset (the second
nibble of the same byte included) is unchanged. -/
theorem C9_uft_entry_set_frame (block : List Nat) (i p : Nat)
    (hlen : i >>> 1 < block.length) :
    routing_uft_entry_get (routing_uft_entry_set block i p) i = (p &&& 0xf) ∧
    ∀ j, j ≠ i →
      routing_uft_entry_get (routing_uft_entry_set block i p) j =
        routing_uft_entry_get block j := by
  have hiland : i &&& 1 = i % 2 := land_1 i
  have hi2 : i >>> 1 = i / 2 := shiftRight_one i
  constructor
  · unfold routing_uft_entry_get routing_uft_entry_set
    by_cases hpar : i &&& 1 = 1
    · rw [if_pos hpar, arrGet_arrSet_self _ _ _ hlen, if_pos hpar, get_nib_odd,
        set_byte_odd, land_15]
      omega
    · rw [if_neg hpar, arrGet_arrSet_self _ _ _ hlen, if_neg hpar, get_nib_even,
        set_byte_even, land_15]
      omega
  · intro j hj
    have hjland : j &&& 1 = j % 2 := land_1 j
    have hj2 : j >>> 1 = j / 2 := shiftRight_one j
    unfold routing_uft_entry_get routing_uft_entry_set
    by_cases hbyte : j >>> 1 = i >>> 1
    · have hparne : i % 2 ≠ j % 2 := by omega
      by_cases hpar : i &&& 1 = 1
      · have hj1 : ¬ (j &&& 1 = 1) := by omega
        rw [if_pos hpar, if_neg hj1, hbyte, arrGet_arrSet_self _ _ _ hlen,
          get_nib_even, get_nib_even, set_byte_odd]
        omega
      · have hj1 : j &&& 1 = 1 := by omega
        rw [if_neg hpar, if_pos hj1, hbyte, arrGet_arrSet_self _ _ _ hlen,
          get_nib_odd, get_nib_odd, set_byte_even]
        omega
    · by_cases hpar : i &&& 1 = 1
      · rw [if_pos hpar, arrGet_arrSet_ne _ _ _ _ (fun h => hbyte h.symm)]
      · rw [if_neg hpar, arrGet_arrSet_ne _ _ _ _ (fun h => hbyte h.symm)]

/-- Witness for C9 on a two-byte block, offset 1 (low nibble of byte 0),
port 5. -/
theorem C9_uft_entry_set_frame_witness :
    ((1 : Nat) >>> 1 < ([0xab, 0xcd] : List Nat).length) ∧
    routing_uft_entry_get (routing_uft_entry_set [0xab, 0xcd] 1 5) 1 = (5 &&& 0xf) :=
  ⟨by decide, (C9_uft_entry_set_frame [0xab, 0xcd] 1 5 (by decide)).1⟩

/-! ## The ring-plane cost matrix (C1) -/

/-- C1: on the ring plane A-B-C-D-A the claim fails on the code: the claimed
values are cost(A,C)=2 and cost(A,B)=1 with cost symmetric, but
`compute_cost_for_plane` computes cost(A,C)=1 and cost(B,C)=0.  The
relaxation loop checks only `cost[ik]` against `ROUTING_COST_INFINITE`;
when `cost[kj]` is still the `0xffff` sentinel the `u16` sum
`cost[ik] + cost[kj]` wraps around (e.g. `1 + 0xffff = 0`) and the wrapped
value overwrites a genuine finite cost.  This theorem evaluates the code at
the failing input. -/
theorem C1_ring_cost_code_bug :
    compute_cost_for_plane 4 ringSds =
      [0, 1, 1, 1, 1, 0, 0, 1, 1, 0, 0, 1, 1, 1, 1, 0] ∧
    routing_cost_lookup ringPlanes ringSdA ringSdC = 1 ∧
    routing_cost_lookup ringPlanes ringSdB ringSdC = 0 ∧
    routing_cost_lookup ringPlanes ringSdA ringSdB = 1 ∧
    routing_cost_lookup ringPlanes ringSdA ringSdA = 0 := by
  refine ⟨by decide, by decide, by decide, by decide, by decide⟩


/-! ## Cached-neighbor validity (C7) -/

/-- C7: after `process_neighbor`, a port's cached neighbor is null unless
the neighbor subdevice is on the routable list, the neighbor port exists at
the reported neighbor port number, the neighbor port is itself routable and
link-active (PM state ACTIVE with the routable control set), and the
relationship is mutually confirmed: the neighbor port's reported neighbor
GUID and port number name this port's subdevice and logical port number.
Hence a cached neighbor, if present, confirms the relationship
symmetrically. -/
theorem C7_cached_neighbor_validity (rl : List Fsubdev) (sd_src : Fsubdev)
    (port_src : Fport) (sd_dst : Fsubdev) (port_dst : Fport)
    (h : process_neighbor rl sd_src port_src = some (sd_dst, port_dst)) :
    port_is_routable port_src = true ∧
    sd_dst ∈ rl ∧
    (∃ pi, port_src.portinfo = some pi ∧ pi.neighbor_guid ≠ 0 ∧
      sd_dst.guid = pi.neighbor_guid ∧
      get_fport_handle sd_dst pi.neighbor_port_number = some port_dst) ∧
    port_is_routable port_dst = true ∧
    port_dst.state = PmPortState.ACTIVE ∧
    (∃ pj, port_dst.portinfo = some pj ∧ pj.neighbor_guid = sd_src.guid ∧
      pj.neighbor_port_number = port_src.lpn) := by
  unfold process_neighbor at h
  by_cases h1 : port_is_routable port_src
  case neg => simp [h1] at h
  rw [if_neg (by simpa using h1)] at h
  rcases hpi : port_src.portinfo with _ | pi
  · rw [hpi] at h; exact absurd h (by simp)
  rw [hpi, Option.some_bind] at h
  by_cases h2 : pi.neighbor_guid = 0 ∨ sd_src.guid = pi.neighbor_guid
  case pos => rw [if_pos h2] at h; exact absurd h (by simp)
  rw [if_neg h2] at h
  rcases hfind : find_routable_sd rl pi.neighbor_guid with _ | sd_dst0
  · rw [hfind] at h; exact absurd h (by simp)
  rw [hfind, Option.some_bind] at h
  rcases hhandle : get_fport_handle sd_dst0 pi.neighbor_port_number with _ | port_dst0
  · rw [hhandle] at h; exact absurd h (by simp)
  rw [hhandle, Option.some_bind] at h
  by_cases h3 : port_is_routable port_dst0
  case neg => rw [if_pos (by simpa using h3)] at h; exact absurd h (by simp)
  rw [if_neg (by simpa using h3)] at h
  rcases hpj : port_dst0.portinfo with _ | pj
  · rw [hpj] at h; exact absurd h (by simp)
  rw [hpj, Option.some_bind] at h
  by_cases h4 : pj.neighbor_guid ≠ sd_src.guid
  case pos => rw [if_pos h4] at h; exact absurd h (by simp)
  rw [if_neg h4] at h
  by_cases h5 : pj.neighbor_port_number ≠ port_src.lpn
  case pos => rw [if_pos h5] at h; exact absurd h (by simp)
  rw [if_neg h5] at h
  have hsd : sd_dst0 = sd_dst := congrArg Prod.fst (Option.some.inj h)
  have hpd : port_dst0 = port_dst := congrArg Prod.snd (Option.some.inj h)
  subst hsd
  subst hpd
  have hmem : sd_dst0 ∈ rl := List.mem_of_find?_eq_some hfind
  have hguid : sd_dst0.guid = pi.neighbor_guid := by
    have := List.find?_some hfind
    simpa using this
  have hactive : port_dst0.state = PmPortState.ACTIVE := by
    have hr : port_is_routable port_dst0 = true := by simpa using h3
    unfold port_is_routable at hr
    have hb : (port_dst0.state == PmPortState.ACTIVE) = true := by
      cases hb2 : (port_dst0.state == PmPortState.ACTIVE) <;> simp [hb2] at hr ⊢
    exact eq_of_beq hb
  refine ⟨by simpa using h1, hmem, ⟨pi, rfl, ?_, hguid, hhandle⟩,
    by simpa using h3, hactive, ⟨pj, hpj, by omega, by omega⟩⟩
  intro hz
  exact h2 (Or.inl hz)

/-- Witness for C7 on the two-subdevice fabric: port 1 of subdevice 1 and
port 2 of subdevice 2 confirm each other. -/
theorem C7_cached_neighbor_validity_witness :
    process_neighbor wRl wSdA wPortA = some (wSdB, wPortB) ∧
    port_is_routable wPortB = true :=
  ⟨rfl, (C7_cached_neighbor_validity wRl wSdA wPortA wSdB wPortB rfl).2.2.2.1⟩

/-! ## Port status query (C10) -/

/-- C10: `get_fport_status` returns `-EINVAL` and leaves the caller's
status buffer unmodified whenever the logical port number has no fabric
port or no health record is published; for a fabric port with a published
record it returns 0 and a copy of the published record for that port. -/
theorem C10_get_fport_status_spec (sd : Fsubdev) (lpn : Nat) (buf : FportStatus) :
    ((get_fport_handle sd lpn = none ∨ sd.port_status = none) →
      get_fport_status sd lpn buf = (-EINVAL, buf)) ∧
    (∀ p curr, get_fport_handle sd lpn = some p → sd.port_status = some curr →
      get_fport_status sd lpn buf = (0, curr lpn)) := by
  constructor
  · intro hcase
    unfold get_fport_status
    rcases hh : get_fport_handle sd lpn with _ | p
    · rfl
    · rcases hs : sd.port_status with _ | curr
      · rfl
      · rcases hcase with hc | hc
        · rw [hh] at hc; exact absurd hc (by simp)
        · rw [hs] at hc; exact absurd hc (by simp)
  · intro p curr hh hs
    unfold get_fport_status
    rw [hh, hs]

/-- Witness for C10: lpn 5 of subdevice 1 has no fabric port (buffer kept,
`-EINVAL`), lpn 1 has one and a record is published (copy returned). -/
theorem C10_get_fport_status_spec_witness :
    (get_fport_handle wSdA 5 = none ∨ wSdA.port_status = none) ∧
    get_fport_status wSdA 5 wBuf = (-EINVAL, wBuf) ∧
    get_fport_handle wSdA 1 = some wPortA ∧
    wSdA.port_status = some wCurr ∧
    get_fport_status wSdA 1 wBuf = (0, wCurr 1) :=
  ⟨Or.inl rfl, (C10_get_fport_status_spec wSdA 5 wBuf).1 (Or.inl rfl), rfl, rfl,
    (C10_get_fport_status_spec wSdA 1 wBuf).2 wPortA wCurr rfl rfl⟩

/-! ## Failed FSM transitions drive the port to InError (C8) -/

/-- C8: every FSM action that issues a mailbox call (disable,
enable-polling, isolate, deisolate, arm, activate) drives the port to
IN_ERROR with RED health and reason FAILED when the call fails (`err` from
the mailbox layer or a nonzero operation error); the actions are `void` in
C and return only the updated state, so no error reaches the caller of the
FSM pass.  IN_ERROR is left only through the clear-error control bit:
`fsm_IN_ERROR` keeps the state unchanged without it, and with it consumes
the bit and moves the port to DISABLED with a rescan requested. -/
theorem C8_failed_call_drives_in_error (ctx : PmCtx) (err : Int) (op_err : Nat)
    (ae : Int) (aoe : Nat) (ie : Int) (hfail : err ≠ 0 ∨ op_err ≠ 0) :
    ((port_disable ctx err op_err ie).port.state = PmPortState.IN_ERROR ∧
      (port_disable ctx err op_err ie).health = set_health_red FportErrorReason.FAILED) ∧
    ((port_enable_polling ctx err op_err ie).port.state = PmPortState.IN_ERROR ∧
      (port_enable_polling ctx err op_err ie).health = set_health_red FportErrorReason.FAILED) ∧
    ((port_isolate ctx err op_err ie).port.state = PmPortState.IN_ERROR ∧
      (port_isolate ctx err op_err ie).health = set_health_red FportErrorReason.FAILED) ∧
    ((port_deisolate ctx err op_err ie).port.state = PmPortState.IN_ERROR ∧
      (port_deisolate ctx err op_err ie).health = set_health_red FportErrorReason.FAILED) ∧
    ((port_arm ctx err op_err ae aoe ie).port.state = PmPortState.IN_ERROR ∧
      (port_arm ctx err op_err ae aoe ie).health = set_health_red FportErrorReason.FAILED) ∧
    ((port_activate ctx err op_err ie).port.state = PmPortState.IN_ERROR ∧
      (port_activate ctx err op_err ie).health = set_health_red FportErrorReason.FAILED) ∧
    (ctx.port.controls.clear_error = false → fsm_IN_ERROR ctx = ctx) ∧
    (ctx.port.controls.clear_error = true →
      (fsm_IN_ERROR ctx).port.state = PmPortState.DISABLED ∧
      (fsm_IN_ERROR ctx).port.controls.clear_error = false ∧
      (fsm_IN_ERROR ctx).flags.rescan_needed = true) := by
  refine ⟨?_, ?_, ?_, ?_, ?_, ?_, ?_, ?_⟩
  · unfold port_disable
    rw [if_pos hfail]
    exact ⟨rfl, rfl⟩
  · unfold port_enable_polling
    rw [if_pos hfail]
    exact ⟨rfl, rfl⟩
  · unfold port_isolate
    rw [if_pos hfail]
    exact ⟨rfl, rfl⟩
  · unfold port_deisolate
    rw [if_pos hfail]
    exact ⟨rfl, rfl⟩
  · unfold port_arm
    rw [if_pos hfail]
    exact ⟨rfl, rfl⟩
  · unfold port_activate
    rw [if_pos hfail]
    exact ⟨rfl, rfl⟩
  · intro hclear
    unfold fsm_IN_ERROR
    rw [hclear]
    rfl
  · intro hclear
    unfold fsm_IN_ERROR
    rw [hclear]
    exact ⟨rfl, rfl, rfl⟩

/-- Witness for C8: a failed disable call (mailbox error -5) on port 1 of
subdevice 1. -/
theorem C8_failed_call_drives_in_error_witness :
    ((-5 : Int) ≠ 0 ∨ (0 : Nat) ≠ 0) ∧
    (port_disable wCtx (-5) 0 0).port.state = PmPortState.IN_ERROR :=
  ⟨Or.inl (by decide),
    (C8_failed_call_drives_in_error wCtx (-5) 0 0 0 0 (Or.inl (by decide))).1.1⟩


/-! ## Single-slot outbox (C5) -/

theorem outbox_step_invariant (a c : OutboxLock) (hstep : OutboxStep a c)
    (ih : a.sem + a.holders = 1 ∧ (a.pending_new_seq = true → a.holders = 1)) :
    c.sem + c.holders = 1 ∧ (c.pending_new_seq = true → c.holders = 1) := by
  obtain ⟨i1, i2⟩ := ih
  cases hstep with
  | acquire serialized hsem =>
    refine ⟨?_, ?_⟩
    · show a.sem - 1 + (a.holders + 1) = 1
      omega
    · intro _
      show a.holders + 1 = 1
      omega
  | release h1 h2 =>
    refine ⟨?_, ?_⟩
    · show a.sem + 1 + (a.holders - 1) = 1
      omega
    · intro hp
      exact absurd (show (false = true) from hp) (by simp)
  | release_held h1 h2 => exact ⟨i1, i2⟩
  | unblock hp =>
    have h3 := i2 hp
    refine ⟨?_, ?_⟩
    · show a.sem + 1 + (a.holders - 1) = 1
      omega
    · intro hq
      exact absurd (show (false = true) from hq) (by simp)

theorem outbox_lock_invariant (s : OutboxLock) (h : OutboxReachable s) :
    s.sem + s.holders = 1 ∧ (s.pending_new_seq = true → s.holders = 1) := by
  unfold OutboxReachable at h
  induction h with
  | refl => exact ⟨rfl, by intro hp; simp [outbox_init] at hp⟩
  | tail _ hstep ih => exact outbox_step_invariant _ _ hstep ih

/-- C5: in every reachable state of the outbox serialization protocol at
most one non-posted request holds the single outbox slot: the slot is
taken by `down(&outbox_sem)` before any send, and a new request cannot be
written until the previous exchange released the slot (for FW_START and
non-posted RESET only when that exchange's own response or timeout wins
`atomic_cmpxchg(pending_new_seq,1,0)` and ups the semaphore). -/
theorem C5_at_most_one_in_flight (s : OutboxLock) (h : OutboxReachable s) :
    s.holders ≤ 1 := by
  have hinv := outbox_lock_invariant s h
  omega

/-- Witness for C5: the state reached by one acquire (slot held once). -/
theorem C5_at_most_one_in_flight_witness :
    OutboxReachable { sem := 0, holders := 1, pending_new_seq := false } ∧
    ({ sem := 0, holders := 1, pending_new_seq := false } : OutboxLock).holders ≤ 1 :=
  ⟨Relation.ReflTransGen.single (OutboxStep.acquire outbox_init false (by decide)),
    C5_at_most_one_in_flight _
      (Relation.ReflTransGen.single (OutboxStep.acquire outbox_init false (by decide)))⟩

/-! ## Responses are delivered to at most one waiter (C6) -/

theorem find_ibox_eq_none (l : List MbdbIbox) (tid op : Nat)
    (h : ∀ b ∈ l, ¬(b.tid = tid ∧ b.op_code = op)) :
    (mbdb_find_ibox l tid op).1 = none := by
  induction l with
  | nil => rfl
  | cons c rest ih =>
    unfold mbdb_find_ibox
    rw [if_neg (h c (by simp))]
    exact ih (fun b hb => h b (by simp [hb]))

theorem find_ibox_some_spec (l : List MbdbIbox) (tid op : Nat) (b : MbdbIbox)
    (h : (mbdb_find_ibox l tid op).1 = some b) :
    b.tid = tid ∧ b.op_code = op ∧ b ∈ l ∧
    (mbdb_find_ibox l tid op).2.length + 1 = l.length ∧
    (∀ x ∈ (mbdb_find_ibox l tid op).2, x ∈ l) := by
  induction l with
  | nil => exact absurd h (by simp [mbdb_find_ibox])
  | cons c rest ih =>
    unfold mbdb_find_ibox at h ⊢
    by_cases hc : c.tid = tid ∧ c.op_code = op
    · rw [if_pos hc] at h ⊢
      have hb : c = b := Option.some.inj h
      subst hb
      exact ⟨hc.1, hc.2, by simp, by simp, fun x hx => by simp [hx]⟩
    · rw [if_neg hc] at h ⊢
      have hrec := ih h
      refine ⟨hrec.1, hrec.2.1, by simp [hrec.2.2.1], by simp; omega, ?_⟩
      intro x hx
      rcases (by simpa using hx : x = c ∨ x ∈ (mbdb_find_ibox rest tid op).2) with h1 | h1
      · simp [h1]
      · simp [hrec.2.2.2.2 x h1]

theorem find_ibox_removed (l : List MbdbIbox) (tid op : Nat) (b : MbdbIbox)
    (hnodup : (l.map MbdbIbox.tid).Nodup)
    (h : (mbdb_find_ibox l tid op).1 = some b) :
    (mbdb_find_ibox (mbdb_find_ibox l tid op).2 tid op).1 = none := by
  induction l with
  | nil => exact absurd h (by simp [mbdb_find_ibox])
  | cons c rest ih =>
    rw [List.map_cons, List.nodup_cons] at hnodup
    by_cases hc : c.tid = tid ∧ c.op_code = op
    · have hfind : mbdb_find_ibox (c :: rest) tid op = (some c, rest) := by
        conv_lhs => unfold mbdb_find_ibox
        rw [if_pos hc]
      rw [hfind]
      apply find_ibox_eq_none
      intro x hx hmatch
      apply hnodup.1
      rw [hc.1, ← hmatch.1]
      exact List.mem_map_of_mem MbdbIbox.tid hx
    · have hfind : mbdb_find_ibox (c :: rest) tid op =
          ((mbdb_find_ibox rest tid op).1, c :: (mbdb_find_ibox rest tid op).2) := by
        conv_lhs => unfold mbdb_find_ibox
        rw [if_neg hc]
      rw [hfind] at h ⊢
      have hstep : mbdb_find_ibox (c :: (mbdb_find_ibox rest tid op).2) tid op =
          ((mbdb_find_ibox (mbdb_find_ibox rest tid op).2 tid op).1,
            c :: (mbdb_find_ibox (mbdb_find_ibox rest tid op).2 tid op).2) := by
        conv_lhs => unfold mbdb_find_ibox
        rw [if_neg hc]
      rw [hstep]
      exact ih hnodup.2 h

theorem handle_unmatched_ne_delivered (mt op : Nat) (b : MbdbIbox) :
    mbdb_ibox_handle_unmatched mt op ≠ InboxEvent.delivered b := by
  unfold mbdb_ibox_handle_unmatched
  repeat' split
  all_goals simp

theorem seq_reset_ibox_list (m : Mbdb) (cw : Nat) :
    (mbdb_seq_reset m cw).ibox_list = m.ibox_list := by
  unfold mbdb_seq_reset
  split
  · rfl
  · dsimp only
    split <;> split <;> rfl

theorem seq_reset_counters (m : Mbdb) (cw : Nat) :
    (mbdb_seq_reset m cw).counters = m.counters := by
  unfold mbdb_seq_reset
  split
  · rfl
  · dsimp only
    split <;> split <;> rfl

/-- C6: a received response is delivered to at most one waiter.  The
pending-record lookup by (transaction id, opcode) unlinks the matched
record, so with distinct transaction ids on the pending list no later
message can match it again; if no record matches, the unmatched-responses
counter increments and the pending list is untouched, with known
unsolicited trap opcodes dispatched to their handlers rather than the
message vanishing. -/
theorem C6_response_delivered_once (m : Mbdb) (cw : Nat) (m2 : Mbdb)
    (ev : InboxEvent)
    (hnodup : (m.ibox_list.map MbdbIbox.tid).Nodup)
    (hrun : mbdb_inbox_full_fn m cw = (m2, ev))
    (hresp : mbdb_mbox_msg_type cw = MBOX_RESPONSE)
    (hcw : cw ≠ 2 ^ 64 - 1) :
    (∀ b, ev = InboxEvent.delivered b →
      b.tid = mbdb_mbox_tid cw ∧ b.op_code = mbdb_mbox_op_code cw ∧
      m2.ibox_list.length + 1 = m.ibox_list.length ∧
      (mbdb_find_ibox m2.ibox_list (mbdb_mbox_tid cw) (mbdb_mbox_op_code cw)).1
        = none) ∧
    ((∀ b, ev ≠ InboxEvent.delivered b) →
      m2.counters.unmatched_responses = m.counters.unmatched_responses + 1 ∧
      m2.ibox_list = m.ibox_list ∧
      ev = mbdb_ibox_handle_unmatched (mbdb_mbox_msg_type cw)
        (mbdb_mbox_op_code cw)) ∧
    mbdb_ibox_handle_unmatched MBOX_RESPONSE MBOX_OP_CODE_PORT_STATE_CHANGE_TRAP
      = InboxEvent.trap_psc ∧
    mbdb_ibox_handle_unmatched MBOX_RESPONSE MBOX_OP_CODE_PORT_LWD_TRAP
      = InboxEvent.trap_lwd ∧
    mbdb_ibox_handle_unmatched MBOX_RESPONSE MBOX_OP_CODE_PORT_LQI_TRAP
      = InboxEvent.trap_lqi ∧
    mbdb_ibox_handle_unmatched MBOX_RESPONSE MBOX_OP_CODE_QSFP_MGR_FAULT_TRAP
      = InboxEvent.trap_qsfp := by
  unfold mbdb_inbox_full_fn at hrun
  rw [if_neg hcw, if_pos hresp] at hrun
  rcases hfr : mbdb_find_ibox m.ibox_list (mbdb_mbox_tid cw) (mbdb_mbox_op_code cw)
    with ⟨o, rest⟩
  rw [hfr] at hrun
  cases o with
  | none =>
    simp only [Prod.mk.injEq] at hrun
    obtain ⟨hm2, hev⟩ := hrun
    refine ⟨?_, ?_, by decide, by decide, by decide, by decide⟩
    · intro b hb
      rw [hb] at hev
      exact absurd hev (handle_unmatched_ne_delivered _ _ b)
    · intro _
      refine ⟨?_, ?_, hev.symm⟩
      · rw [← hm2]
      · rw [← hm2]
  | some b0 =>
    simp only [Prod.mk.injEq] at hrun
    obtain ⟨hm2, hev⟩ := hrun
    have hfr1 : (mbdb_find_ibox m.ibox_list (mbdb_mbox_tid cw)
        (mbdb_mbox_op_code cw)).1 = some b0 := by rw [hfr]
    have hfr2 : (mbdb_find_ibox m.ibox_list (mbdb_mbox_tid cw)
        (mbdb_mbox_op_code cw)).2 = rest := by rw [hfr]
    have hspec := find_ibox_some_spec _ _ _ _ hfr1
    have hrem := find_ibox_removed _ _ _ _ hnodup hfr1
    rw [hfr2] at hspec hrem
    have hlist : m2.ibox_list = rest := by
      rw [← hm2, seq_reset_ibox_list]
    refine ⟨?_, ?_, by decide, by decide, by decide, by decide⟩
    · intro b hb
      rw [hb] at hev
      have hb0 : b = { b0 with
          cw := cw
          rsp_status :=
            if mbdb_mbox_seqno_error (mbdb_mbox_seq_no cw) m.inbox_seqno
            then MBOX_RSP_STATUS_SEQ_NO_ERROR
            else mbdb_mbox_rsp_status cw } := by
        exact (InboxEvent.delivered.inj hev).symm
      rw [hb0]
      exact ⟨hspec.1, hspec.2.1, by rw [hlist]; exact hspec.2.2.2.1,
        by rw [hlist]; exact hrem⟩
    · intro hnone
      exact absurd hev.symm (hnone _)


/-! ## A timed-out call frees its record and releases the outbox (C4) -/

theorem removeFirst_append_self (l : List MbdbIbox) (b : MbdbIbox) (h : b ∉ l) :
    removeFirstIbox (l ++ [b]) b = l := by
  induction l with
  | nil => simp [removeFirstIbox]
  | cons c rest ih =>
    rw [List.cons_append]
    unfold removeFirstIbox
    rw [if_neg (by intro hcb; exact h (by simp [hcb]))]
    rw [ih (by intro hb; exact h (by simp [hb]))]

theorem build_cw_req_decode (op len tid : Nat) (hop : op < 256) :
    mbdb_mbox_op_code (build_cw op MBOX_REQUEST MBOX_RESPONSE_REQUESTED 0 len tid)
      = op ∧
    mbdb_mbox_is_posted (build_cw op MBOX_REQUEST MBOX_RESPONSE_REQUESTED 0 len tid)
      = MBOX_RESPONSE_REQUESTED := by
  rw [build_cw_eq]
  simp only [mbdb_mbox_op_code, mbdb_mbox_is_posted, MBOX_CW_OPCODE_MASK,
    MBOX_CW_OPCODE_SHIFT, MBOX_CW_POSTED_MASK, MBOX_CW_POSTED_SHIFT,
    MBOX_REQUEST, MBOX_RESPONSE_REQUESTED, Nat.shiftRight_eq_div_pow]
  rw [land_255, land_1]
  norm_num
  constructor <;> omega

theorem outbox_acquire_eval (m : Mbdb) (cw : Nat)
    (hsem : m.outbox_sem = 1) (hstop : m.stopping = false)
    (hhw : m.outbox_empty_hw = true)
    (hposted : mbdb_mbox_is_posted cw = MBOX_RESPONSE_REQUESTED) :
    mbdb_outbox_acquire m cw =
      (Except.ok (cw ||| ((m.outbox_seqno &&& MBOX_CW_SEQ_NO_MASK) <<<
          MBOX_CW_SEQ_NO_SHIFT)),
       if mbdb_mbox_op_code cw = MBOX_OP_CODE_FW_START ∨
          (mbdb_mbox_op_code cw = MBOX_OP_CODE_RESET ∧
           mbdb_mbox_is_posted cw = MBOX_RESPONSE_REQUESTED)
       then { m with
              outbox_sem := 0
              counters := { m.counters with
                non_posted_requests := m.counters.non_posted_requests + 1 }
              outbox_seqno := mbdb_mbox_seqno_next m.outbox_seqno
              pending_new_seq := true }
       else { m with
              outbox_sem := 0
              counters := { m.counters with
                non_posted_requests := m.counters.non_posted_requests + 1 }
              outbox_seqno := mbdb_mbox_seqno_next m.outbox_seqno }) := by
  unfold mbdb_outbox_acquire
  simp only [hsem, hstop, hhw, hposted, MBOX_RESPONSE_REQUESTED,
    MBOX_NO_RESPONSE_REQUESTED]
  norm_num
theorem ops_execute_no_response_spec (m : Mbdb) (op_code params_len : Nat)
    (hop : op_code < 256)
    (hstop : m.stopping = false) (hsem : m.outbox_sem = 1)
    (hpend : m.pending_new_seq = false) (hhw : m.outbox_empty_hw = true)
    (hfresh : ∀ x ∈ m.ibox_list, x.tid < m.inbox_tid) :
    (ops_execute_no_response m op_code params_len).1 = -ETIMEDOUT ∧
    (ops_execute_no_response m op_code params_len).2.ibox_list = m.ibox_list ∧
    (ops_execute_no_response m op_code params_len).2.counters.timedout_responses
      = m.counters.timedout_responses + 1 ∧
    (ops_execute_no_response m op_code params_len).2.outbox_sem = 1 ∧
    (ops_execute_no_response m op_code params_len).2.pending_new_seq = false ∧
    (ops_execute_no_response m op_code params_len).2.stopping = false ∧
    (ops_execute_no_response m op_code params_len).2.outbox_empty_hw = true ∧
    (ops_execute_no_response m op_code params_len).2.inbox_tid = m.inbox_tid + 1 := by
  have hdec := build_cw_req_decode op_code params_len m.inbox_tid hop
  rcases hpr : mbdb_ibox_acquire m op_code 0 false with ⟨b, m1⟩
  have hpr2 := hpr
  unfold mbdb_ibox_acquire at hpr2
  simp only [Prod.mk.injEq] at hpr2
  obtain ⟨hbv, hm1v⟩ := hpr2
  have hbtid : b.tid = m.inbox_tid := by rw [← hbv]
  have hbop : b.op_code = op_code := by rw [← hbv]
  have hm1sem : m1.outbox_sem = 1 := by rw [← hm1v]; simpa using hsem
  have hm1stop : m1.stopping = false := by rw [← hm1v]; simpa using hstop
  have hm1hw : m1.outbox_empty_hw = true := by rw [← hm1v]; simpa using hhw
  have hm1pend : m1.pending_new_seq = false := by rw [← hm1v]; simpa using hpend
  have hm1list : m1.ibox_list = m.ibox_list ++ [b] := by rw [← hm1v, ← hbv]
  have hm1ctr : m1.counters = m.counters := by rw [← hm1v]
  have hm1tid : m1.inbox_tid = m.inbox_tid + 1 := by rw [← hm1v]
  have hbmem : b ∉ m.ibox_list := by
    intro hmem
    have h2 := hfresh _ hmem
    omega
  have hrem := removeFirst_append_self m.ibox_list b hbmem
  have hacq := outbox_acquire_eval m1
      (build_cw op_code MBOX_REQUEST MBOX_RESPONSE_REQUESTED 0 params_len m.inbox_tid)
      hm1sem hm1stop hm1hw hdec.2
  unfold ops_execute_no_response
  rw [hpr]
  dsimp only
  rw [hbtid, hacq]
  dsimp only
  simp only [hdec.1, hdec.2, eq_self_iff_true, and_true]
  by_cases hsp : op_code = MBOX_OP_CODE_FW_START ∨ op_code = MBOX_OP_CODE_RESET
  · rw [if_pos hsp]
    unfold mbdb_outbox_release
    rw [if_neg (by simp)]
    unfold mbdb_ibox_wait_no_response
    dsimp only
    rw [hm1stop]
    rw [if_neg (by simp)]
    rw [hm1list, hrem, hbop]
    rw [if_pos (by exact ⟨hsp, rfl⟩)]
    refine ⟨rfl, rfl, ?_, rfl, rfl, rfl, hm1hw, hm1tid⟩
    dsimp only
    rw [hm1ctr]
  · rw [if_neg hsp]
    unfold mbdb_outbox_release
    rw [if_pos (by simp [hm1pend])]
    unfold mbdb_ibox_wait_no_response
    dsimp only
    rw [hm1stop]
    rw [if_neg (by simp)]
    rw [hm1list, hrem, hbop]
    rw [if_neg (by simp [hm1pend])]
    refine ⟨rfl, rfl, ?_, rfl, hm1pend, rfl, hm1hw, hm1tid⟩
    dsimp only
    rw [hm1ctr]


/-- C4: a non-posted mailbox call whose response never arrives fails with
`-ETIMEDOUT`, its pending-response record is removed from the pending set
and freed, the timed-out-received counter increments, and the outbox is not
permanently locked: after the call the semaphore is free again and
`pending_new_seq` is clear (including after a timed-out RESET or FW_START,
whose serialized hold is released by the timeout path), so a subsequent
call on the same subdevice runs to its own normal timeout. -/
theorem C4_timeout_frees_record_and_outbox (m : Mbdb)
    (op_code params_len op2 pl2 : Nat)
    (hop : op_code < 256) (hop2 : op2 < 256)
    (hstop : m.stopping = false) (hsem : m.outbox_sem = 1)
    (hpend : m.pending_new_seq = false) (hhw : m.outbox_empty_hw = true)
    (hfresh : ∀ x ∈ m.ibox_list, x.tid < m.inbox_tid) :
    (ops_execute_no_response m op_code params_len).1 = -ETIMEDOUT ∧
    (ops_execute_no_response m op_code params_len).2.ibox_list = m.ibox_list ∧
    (ops_execute_no_response m op_code params_len).2.counters.timedout_responses
      = m.counters.timedout_responses + 1 ∧
    (ops_execute_no_response m op_code params_len).2.outbox_sem = 1 ∧
    (ops_execute_no_response m op_code params_len).2.pending_new_seq = false ∧
    (ops_execute_no_response
        (ops_execute_no_response m op_code params_len).2 op2 pl2).1
      = -ETIMEDOUT := by
  have h1 := ops_execute_no_response_spec m op_code params_len hop hstop hsem
    hpend hhw hfresh
  have hfresh2 : ∀ x ∈ (ops_execute_no_response m op_code params_len).2.ibox_list,
      x.tid < (ops_execute_no_response m op_code params_len).2.inbox_tid := by
    rw [h1.2.1, h1.2.2.2.2.2.2.2]
    intro x hx
    have := hfresh x hx
    omega
  have h2 := ops_execute_no_response_spec _ op2 pl2 hop2 h1.2.2.2.2.2.1
    h1.2.2.2.1 h1.2.2.2.2.1 h1.2.2.2.2.2.2.1 hfresh2
  exact ⟨h1.1, h1.2.1, h1.2.2.1, h1.2.2.2.1, h1.2.2.2.2.1, h2.1⟩

/-- Witness for C4: opcode 5 then opcode 7 on a quiescent mailbox, both
timing out. -/
theorem C4_timeout_frees_record_and_outbox_witness :
    ((5 : Nat) < 256 ∧ (7 : Nat) < 256 ∧ wM0.stopping = false ∧
      wM0.outbox_sem = 1 ∧ wM0.pending_new_seq = false ∧
      wM0.outbox_empty_hw = true ∧
      (∀ x ∈ wM0.ibox_list, x.tid < wM0.inbox_tid)) ∧
    (ops_execute_no_response wM0 5 0).1 = -ETIMEDOUT :=
  ⟨⟨by decide, by decide, rfl, rfl, rfl, rfl,
      by intro x hx; simp [wM0] at hx⟩,
    (C4_timeout_frees_record_and_outbox wM0 5 0 7 0 (by decide) (by decide)
      rfl rfl rfl rfl (by intro x hx; simp [wM0] at hx)).1⟩

/-- Witness for C6: a response control word (value 7: opcode 7, response,
tid 0) delivered against the one pending record of `wM1`. -/
theorem C6_response_delivered_once_witness :
    ((wM1.ibox_list.map MbdbIbox.tid).Nodup ∧
      mbdb_mbox_msg_type 7 = MBOX_RESPONSE ∧ (7 : Nat) ≠ 2 ^ 64 - 1) ∧
    mbdb_inbox_full_fn wM1 7 = (wM2, InboxEvent.delivered wIboxDone) ∧
    wIboxDone.tid = mbdb_mbox_tid 7 :=
  ⟨⟨by decide, by decide, by decide⟩, by decide,
    ((C6_response_delivered_once wM1 7 wM2 (InboxEvent.delivered wIboxDone)
      (by decide) (by decide) (by decide) (by decide)).1 wIboxDone rfl).1⟩

theorem xa_load_self (l : List (Nat × List Nat)) (e : Nat × List Nat)
    (hnd : (l.map Prod.fst).Nodup) (he : e ∈ l) :
    xa_load l e.1 = some e.2 := by
  induction l with
  | nil => cases he
  | cons c rest ih =>
    rw [List.map_cons, List.nodup_cons] at hnd
    rcases List.mem_cons.mp he with hec | her
    · subst hec
      unfold xa_load
      rw [List.find?_cons_of_pos]
      · rfl
      · simp
    · have hne : c.1 ≠ e.1 := by
        intro hcontra
        exact hnd.1 (hcontra ▸ List.mem_map.mpr ⟨e, her, rfl⟩)
      have hrec := ih hnd.2 her
      unfold xa_load at hrec ⊢
      rw [List.find?_cons_of_neg]
      · exact hrec
      · simp [hne]

theorem rpipe_bridge_changed_self (U : RoutingUft) (i : Nat) (b : List Nat)
    (h : xa_load U.bridges i = some b) :
    rpipe_bridge_changed b i (some U) = false := by
  unfold rpipe_bridge_changed
  dsimp only
  rw [h]
  simp

theorem rpipe_update_go_nil (U : RoutingUft) (pm : Nat) (l : List (Nat × List Nat))
    (h : ∀ e ∈ l, xa_load U.bridges e.1 = some e.2) :
    rpipe_write_bridge_update_go (some U) pm l = Except.ok [] := by
  induction l with
  | nil => rfl
  | cons c rest ih =>
    have hch := rpipe_bridge_changed_self U c.1 c.2 (h c (List.mem_cons_self c rest))
    unfold rpipe_write_bridge_update_go
    rw [hch]
    simp only [Bool.false_eq_true, if_false]
    exact ih (fun e he => h e (List.mem_cons_of_mem c he))

theorem rpipe_remove_go_nil (U : RoutingUft) (pm : Nat) (l : List (Nat × List Nat))
    (h : ∀ e ∈ l, (xa_load U.bridges e.1).isSome) :
    rpipe_write_bridge_remove_go U pm l = Except.ok [] := by
  induction l with
  | nil => rfl
  | cons c rest ih =>
    have hc := h c (List.mem_cons_self c rest)
    unfold rpipe_write_bridge_remove_go
    rw [if_pos hc]
    exact ih (fun e he => h e (List.mem_cons_of_mem c he))

theorem rpipe_write_unchanged (sd : SdIo)
    (huft : sd.uft = some sd.uft_next)
    (hnd : (sd.uft_next.bridges.map Prod.fst).Nodup) :
    rpipe_write sd = Except.ok
      [HwWrite.rpipeSet (rpipe_port_mask sd) ROUTING_FID_CPORT_BASE ROUTING_MAX_DEVICES
        (block_to_rpipe sd.uft_next.mgmt ROUTING_MAX_DEVICES)] := by
  have hmem : ∀ e ∈ sd.uft_next.bridges, xa_load sd.uft_next.bridges e.1 = some e.2 :=
    fun e he => xa_load_self sd.uft_next.bridges e hnd he
  have hupd : rpipe_write_bridge_update sd (rpipe_port_mask sd) = Except.ok [] := by
    unfold rpipe_write_bridge_update
    rw [huft]
    exact rpipe_update_go_nil sd.uft_next (rpipe_port_mask sd) sd.uft_next.bridges hmem
  have hrem : rpipe_write_bridge_remove_go sd.uft_next (rpipe_port_mask sd)
      sd.uft_next.bridges = Except.ok [] :=
    rpipe_remove_go_nil sd.uft_next (rpipe_port_mask sd) sd.uft_next.bridges
      (fun e he => by rw [hmem e he]; rfl)
  unfold rpipe_write
  unfold rpipe_write_block
  rw [if_neg (by decide : ¬ROUTING_MAX_DEVICES > MAX_UFT_ENTRIES)]
  dsimp only
  rw [hupd]
  dsimp only
  rw [huft]
  dsimp only
  rw [hrem]
  dsimp only
  simp

theorem fidgen_lut_writes_self (r : Nat) : ∀ (addr : Nat) (l : List Nat),
    fidgen_lut_writes addr (some l) l r = [] := by
  induction r using Nat.strong_induction_on with
  | _ r ih =>
    intro addr l
    unfold fidgen_lut_writes
    by_cases hr : r = 0
    · rw [dif_pos hr]
    · rw [dif_neg hr]
      dsimp only [Option.map_some]
      rw [if_pos rfl]
      rw [List.nil_append]
      have h254 : MBOX_WRITE_DATA_QWORDS = 254 := by decide
      exact ih (r - min r MBOX_WRITE_DATA_QWORDS) (by omega) _ _

theorem fidgen_write_port_cached (sd : SdIo) (fg : RoutingFidgen) (port : Nat)
    (hfgc : sd.fidgen = some fg) :
    fidgen_write_port sd fg port = fidgen_write_port_pkgaddr sd (get_raw_port_base port) := by
  unfold fidgen_write_port
  rw [hfgc]
  dsimp only
  rw [if_pos rfl, List.nil_append]

theorem fidgen_write_port_table_cached (sd : SdIo) (fg : RoutingFidgen) (port : Nat)
    (hfgc : sd.fidgen = some fg) :
    fidgen_write_port_table sd fg port = [] := by
  unfold fidgen_write_port_table
  rw [hfgc]
  exact fidgen_lut_writes_self (sd.max_dpa_index + 1) _ _

theorem bridge_write_cached (sd : SdIo) (fg : RoutingFidgen)
    (hfgn : sd.fidgen_next = some fg) (hfgc : sd.fidgen = some fg) :
    bridge_write sd = Except.ok (sd.bridge_lpns.foldr
      (fun lpn acc =>
        fidgen_write_port_pkgaddr sd (get_raw_port_base lpn) ++
        HwWrite.linkStateSet lpn IB_PORT_ACTIVE :: acc) []) := by
  unfold bridge_write
  rw [hfgn]
  dsimp only
  congr 1
  induction sd.bridge_lpns with
  | nil => rfl
  | cons lpn rest ih =>
    rw [List.foldr_cons, List.foldr_cons, ih,
      fidgen_write_port_cached sd fg lpn hfgc,
      fidgen_write_port_table_cached sd fg lpn hfgc]
    rfl

theorem io_work_fn_cached (sd : SdIo) (fg : RoutingFidgen)
    (huft : sd.uft = some sd.uft_next)
    (hfgn : sd.fidgen_next = some fg)
    (hfgc : sd.fidgen = some fg)
    (hnd : (sd.uft_next.bridges.map Prod.fst).Nodup) :
    (io_work_fn sd).1 = Except.ok
      (HwWrite.switchinfoSet (ROUTING_UFT_SIZE - 1) ::
       HwWrite.rpipeSet (rpipe_port_mask sd) ROUTING_FID_CPORT_BASE ROUTING_MAX_DEVICES
         (block_to_rpipe sd.uft_next.mgmt ROUTING_MAX_DEVICES) ::
       sd.bridge_lpns.foldr
         (fun lpn acc =>
           fidgen_write_port_pkgaddr sd (get_raw_port_base lpn) ++
           HwWrite.linkStateSet lpn IB_PORT_ACTIVE :: acc) []) ∧
    (io_work_fn sd).2.uft = sd.uft ∧
    (io_work_fn sd).2.fidgen = sd.fidgen := by
  have hsd : (switchinfo_write sd).2 =
      { sd with switchinfo_lft_top := ROUTING_UFT_SIZE - 1 } := rfl
  have huft2 : (switchinfo_write sd).2.uft = some (switchinfo_write sd).2.uft_next := huft
  have hfgn2 : (switchinfo_write sd).2.fidgen_next = some fg := hfgn
  have hfgc2 : (switchinfo_write sd).2.fidgen = some fg := hfgc
  have hnd2 : ((switchinfo_write sd).2.uft_next.bridges.map Prod.fst).Nodup := hnd
  have hrw := rpipe_write_unchanged (switchinfo_write sd).2 huft2 hnd2
  have hbw := bridge_write_cached (switchinfo_write sd).2 fg hfgn2 hfgc2
  unfold io_work_fn
  rw [hrw]
  dsimp only
  rw [hbw]
  dsimp only
  refine ⟨?_, ?_, ?_⟩
  · rfl
  · show (routing_update (switchinfo_write sd).2).uft = sd.uft
    unfold routing_update
    rw [huft]
    rfl
  · show (routing_update (switchinfo_write sd).2).fidgen = sd.fidgen
    unfold routing_update
    rw [hfgc, ← hfgn]
    rfl

/-- C2: under an unchanged topology (current UFT equals next, current fidgen
equals next — the state after a completed sweep followed by a no-change
recompute), the second sweep's programming stage still issues the switchinfo
write, the mgmt rpipe write, and per-bridge-port package-address and
activate writes; it issues no bridge-block, clear, fidgen-block, or LUT
writes, and the published tables are unchanged. The claim's "zero hardware
writes" is therefore false, while "identical forwarding tables" holds. -/
theorem C2_resweep_idempotent_writes (sd : SdIo) (fg : RoutingFidgen)
    (huft : sd.uft = some sd.uft_next)
    (hfgn : sd.fidgen_next = some fg)
    (hfgc : sd.fidgen = some fg)
    (hnd : (sd.uft_next.bridges.map Prod.fst).Nodup) :
    (io_work_fn sd).1 = Except.ok
      (HwWrite.switchinfoSet (ROUTING_UFT_SIZE - 1) ::
       HwWrite.rpipeSet (rpipe_port_mask sd) ROUTING_FID_CPORT_BASE ROUTING_MAX_DEVICES
         (block_to_rpipe sd.uft_next.mgmt ROUTING_MAX_DEVICES) ::
       sd.bridge_lpns.foldr
         (fun lpn acc =>
           fidgen_write_port_pkgaddr sd (get_raw_port_base lpn) ++
           HwWrite.linkStateSet lpn IB_PORT_ACTIVE :: acc) []) ∧
    (io_work_fn sd).2.uft = sd.uft ∧
    (io_work_fn sd).2.fidgen = sd.fidgen :=
  io_work_fn_cached sd fg huft hfgn hfgc hnd

set_option maxRecDepth 8192 in
/-- C2 counterexample to "issues zero hardware writes": a state whose current
tables equal the next tables (no topology change) on which the programming
stage still issues ten hardware writes — switchinfo, the mgmt rpipe block,
and a package-address write plus an activate for each of the four bridge
ports — while the published tables are unchanged. -/
theorem C2_second_sweep_writes_counterexample :
    wSd2.uft = some wSd2.uft_next ∧ wSd2.fidgen = wSd2.fidgen_next ∧
    (io_work_fn wSd2).2.uft = wSd2.uft ∧ (io_work_fn wSd2).2.fidgen = wSd2.fidgen ∧
    (io_work_fn wSd2).1 = Except.ok wWrites2 ∧ wWrites2.length = 10 := by
  have h := io_work_fn_cached wSd2 wFg2 rfl rfl rfl List.nodup_nil
  refine ⟨rfl, rfl, h.2.1, h.2.2, ?_, rfl⟩
  rw [h.1]
  rfl

theorem C2_resweep_idempotent_writes_witness :
    (wSd2.uft = some wSd2.uft_next ∧ wSd2.fidgen_next = some wFg2 ∧
      wSd2.fidgen = some wFg2 ∧ (wSd2.uft_next.bridges.map Prod.fst).Nodup) ∧
    (io_work_fn wSd2).2.uft = wSd2.uft ∧ (io_work_fn wSd2).2.fidgen = wSd2.fidgen :=
  ⟨⟨rfl, rfl, rfl, List.nodup_nil⟩,
    (C2_resweep_idempotent_writes wSd2 wFg2 rfl rfl rfl List.nodup_nil).2⟩
